import Mathlib

/-!
Shallow embedding of `chain/network/src/peer/peer_actor.rs` (nearcore):
the per-connection peer protocol engine (`PeerActor`).

Modelling conventions:
* The actor's fields become a state record `PeerActor`.  Actix context
  effects become explicit state components: `ctx.stop()` sets the
  `stopped` flag, `framed.write` appends the frame to the `framed` list
  (the model assumes the write buffer accepts every frame).
* Responses from the external actors (peer manager, client, view client)
  and the clock are supplied by an `Oracle` argument, one per handler
  invocation; the actix continuations (`then ... spawn/wait`) are applied
  inline.
* Machine integers are `Nat`; the shared `txns_since_last_block` atomic
  is a `usize`, so its increment is taken modulo `2 ^ 64`.
* Unclaimed bookkeeping is omitted: prometheus metrics, byte counters of
  the `Tracker`, the throttle controller, the rate-limited
  `ReceivedMessage` update, and the `peer_counter` decrement.
* Types defined outside `peer_actor.rs` (messages, codec, tracker sets,
  version constants) are modelled by the minimal data the engine
  inspects; payloads the engine never looks into are plain `Nat`s.
-/

/-- Wire encodings (`network_protocol::Encoding`). -/
inductive PeerEncoding
  | proto
  | borsh
deriving DecidableEq

/-- `near_network_primitives::types::PeerType`. -/
inductive PeerType
  | inbound
  | outbound
deriving DecidableEq

/-- `ReasonForBan` (subset of the variants; the engine treats the reason
as an opaque token, so a representative set suffices). -/
inductive ReasonForBan
  | invalidSignature
  | invalidEdge
  | abusive
deriving DecidableEq

/-- `PeerStatus` (peer_actor.rs, bottom of the file). -/
inductive PeerStatus
  | connecting
  | ready
  | banned (reason : ReasonForBan)
deriving DecidableEq

abbrev PeerId := Nat
abbrev CryptoHash := Nat
abbrev PeerSignature := Nat

/-- `PeerIdOrHash`: target of a routed message. -/
inductive PeerIdOrHash
  | peerId (p : PeerId)
  | hash (h : CryptoHash)
deriving DecidableEq

/-- `PeerInfo`: id, optional listen address (modelled by its port),
optional account id. -/
structure PeerInfo where
  id : PeerId
  addr : Option Nat
  account_id : Option Nat
deriving DecidableEq

/-- `PartialEdgeInfo`: nonce plus one peer's signature. -/
structure PartialEdgeInfo where
  nonce : Nat
  signature : PeerSignature
deriving DecidableEq

/-- An `Edge` as carried by `LastEdge` / `ResponseUpdateNonce`; the engine
never inspects its fields (validity goes through `edge.verify()`, an
oracle in this model). -/
abbrev EdgeData := Nat

/-- `PeerChainInfoV2` restricted to the fields the engine reads. -/
structure PeerChainInfoV2 where
  genesis_id : Nat
  height : Nat
deriving DecidableEq

/-- The `Handshake` message. -/
structure HandshakeData where
  protocol_version : Nat
  sender_peer_id : PeerId
  target_peer_id : PeerId
  sender_listen_port : Option Nat
  sender_chain_info : PeerChainInfoV2
  partial_edge_info : PartialEdgeInfo
deriving DecidableEq

/-- `HandshakeFailureReason`. -/
inductive HandshakeFailureReason
  | protocolVersionMismatch (version : Nat) (oldest_supported_version : Nat)
  | genesisMismatch (genesis : Nat)
  | invalidTarget
deriving DecidableEq

/-- A block, restricted to the fields the engine reads (`hash()`,
`header().height()`). -/
structure BlockData where
  hash : CryptoHash
  height : Nat
deriving DecidableEq

/-- `RoutedMessageBody` (payloads the engine never inspects are `Nat`). -/
inductive RoutedMessageBody
  | forwardTx (tx : Nat)
  | blockApproval (a : Nat)
  | txStatusRequest (account : Nat) (txHash : CryptoHash)
  | txStatusResponse (r : Nat)
  | receiptOutcomeRequest (receiptId : Nat)
  | stateRequestHeader (shard : Nat) (syncHash : CryptoHash)
  | stateRequestPart (shard : Nat) (syncHash : CryptoHash) (part : Nat)
  | stateResponse (r : Nat)
  | versionedStateResponse (r : Nat)
  | partialEncodedChunkRequest (r : Nat)
  | partialEncodedChunkResponse (r : Nat)
  | partialEncodedChunk (r : Nat)
  | versionedPartialEncodedChunk (r : Nat)
  | partialEncodedChunkForward (r : Nat)
  | ping (n : Nat)
  | pong (n : Nat)
  | queryRequest (q : Nat)
  | queryResponse (q : Nat)
  | unused
deriving DecidableEq

/-- `RoutedMessage` restricted to the fields the engine reads:
author, target, signature (the dedup key) and the body. -/
structure RoutedMessageData where
  author : PeerId
  target : PeerIdOrHash
  signature : PeerSignature
  body : RoutedMessageBody
deriving DecidableEq

/-- The `PeerMessage` sum type (wire message language). -/
inductive PeerMessage
  | handshake (h : HandshakeData)
  | handshakeFailure (info : PeerInfo) (reason : HandshakeFailureReason)
  | lastEdge (e : EdgeData)
  | syncRoutingTable (u : Nat)
  | requestUpdateNonce (e : PartialEdgeInfo)
  | responseUpdateNonce (e : EdgeData)
  | peersRequest
  | peersResponse (peers : List PeerInfo)
  | blockHeadersRequest (hs : List CryptoHash)
  | blockHeaders (hs : List Nat)
  | blockRequest (h : CryptoHash)
  | block (b : BlockData)
  | transaction (t : Nat)
  | routed (m : RoutedMessageData)
  | disconnect
  | challenge (c : Nat)
  | epochSyncRequest (e : Nat)
  | epochSyncResponse (e : Nat)
  | epochSyncFinalizationRequest (e : Nat)
  | epochSyncFinalizationResponse (e : Nat)
deriving DecidableEq

/-- A received frame, abstracting the byte vector by what
`PeerMessage::deserialize` yields on it for each encoding (the codec
itself lives in the network_protocol module, outside the embedded file;
the engine only observes these two outcomes). -/
structure RawFrame where
  proto : Option PeerMessage
  borsh : Option PeerMessage
deriving DecidableEq

/-- `PeerMessage::deserialize(enc, msg)`, as observed through `RawFrame`. -/
def RawFrame.deserialize (raw : RawFrame) : PeerEncoding → Option PeerMessage
  | .proto => raw.proto
  | .borsh => raw.borsh

/-- peer_actor.rs line 53: `MAX_PEER_MSG_PER_MIN = usize::MAX`
(with a TODO noting the limit is way too high). -/
def MAX_PEER_MSG_PER_MIN : Nat := 2 ^ 64 - 1

/-- peer_actor.rs line 58: maximum number of transaction messages
accepted between block messages. -/
def MAX_TRANSACTIONS_PER_BLOCK_MESSAGE : Nat := 1000

/-- peer_actor.rs line 60: capacity of the routed-message LRU cache. -/
def ROUTED_MESSAGE_CACHE_SIZE : Nat := 1000

/-- peer_actor.rs line 62: dedup window, in milliseconds. -/
def DROP_DUPLICATED_MESSAGES_PERIOD : Nat := 50

/-- Modulus of `usize` arithmetic (64-bit platform). -/
def USIZE_MOD : Nat := 2 ^ 64

/-- Key of the routed-message cache: (author, target, signature). -/
abbrev RoutedKey := PeerId × PeerIdOrHash × PeerSignature

/-- `LruCache::get(&key)`: looks the key up and, when present, promotes
the entry to most-recently-used (entries are kept most-recent-first). -/
def lruGet (entries : List (RoutedKey × Nat)) (k : RoutedKey) :
    Option Nat × List (RoutedKey × Nat) :=
  match entries.find? (fun e => e.1 = k) with
  | some e => (some e.2, e :: entries.filter (fun e => ¬ e.1 = k))
  | none => (none, entries)

/-- `LruCache::put(key, v)`: insert or overwrite at most-recently-used
position; when the capacity would be exceeded the least-recently-used
entry (the last one) is evicted. -/
def lruPut (cap : Nat) (entries : List (RoutedKey × Nat)) (k : RoutedKey) (v : Nat) :
    List (RoutedKey × Nat) :=
  ((k, v) :: entries.filter (fun e => ¬ e.1 = k)).take cap

/-- Timestamp currently associated to a key (observation helper). -/
def lruPeek (entries : List (RoutedKey × Nat)) (k : RoutedKey) : Option Nat :=
  (entries.find? (fun e => e.1 = k)).map (fun e => e.2)

/-- The local node's version constants
(`near_primitives::version::{PROTOCOL_VERSION,
PEER_MIN_ALLOWED_PROTOCOL_VERSION}`); their numeric values live outside
the embedded file, so the model is parametric in them. -/
structure VersionCfg where
  PROTOCOL_VERSION : Nat
  PEER_MIN_ALLOWED_PROTOCOL_VERSION : Nat
deriving DecidableEq

/-- `RegisterPeerResponse` from the peer manager. -/
inductive RegisterPeerResponse
  | accept (edge_info : Option PartialEdgeInfo)
  | invalidNonce (edge : EdgeData)
  | reject
deriving DecidableEq

/-- The client's verdict on a dispatched message
(`NetworkClientResponses`, restricted to what the engine reacts to). -/
inductive ClientVerdict
  | noResponse
  | invalidTx
  | ban (reason : ReasonForBan)
deriving DecidableEq

/-- Peer-manager response to `RequestUpdateNonce` / `ResponseUpdateNonce`. -/
inductive NonceVerdict
  | edgeUpdate (edge : EdgeData)
  | banPeer (reason : ReasonForBan)
  | other
deriving DecidableEq

/-- External inputs consumed during one handler invocation: the clock
sample and the responses of the collaborating actors. -/
structure Oracle where
  now : Nat
  chain_info : PeerChainInfoV2
  register_resp : RegisterPeerResponse
  routed_verify : Bool
  routed_for_us : Bool
  client_verdict : ClientVerdict
  edge_verify : Bool
  updated_edge : Option PartialEdgeInfo
  peers : List PeerInfo
  nonce_verdict : NonceVerdict
deriving DecidableEq

/-- The state of one `PeerActor` (the struct's fields, plus the
explicit effect components `framed` and `stopped`). -/
structure PeerActor where
  cfg : VersionCfg
  my_node_info : PeerInfo
  peer_info : Option PeerInfo
  peer_type : PeerType
  peer_status : PeerStatus
  protocol_version : Nat
  genesis_id : Nat
  chain_info : PeerChainInfoV2
  partial_edge_info : Option PartialEdgeInfo
  txns_since_last_block : Nat
  routed_message_cache : List (RoutedKey × Nat)
  protocol_buffers_supported : Bool
  force_encoding : Option PeerEncoding
  tracker_received_blocks : List CryptoHash
  tracker_requested_blocks : List CryptoHash
  framed : List (PeerEncoding × PeerMessage)
  stopped : Bool
deriving DecidableEq

/-- `PeerActor::new` (the fields not claimed by any property keep their
`Default::default()`; the shared atomic counter's current value is a
parameter, as the `Arc` it lives in is created by the caller). -/
def PeerActor.new (cfg : VersionCfg) (my_node_info : PeerInfo)
    (peer_info : Option PeerInfo) (peer_type : PeerType)
    (partial_edge_info : Option PartialEdgeInfo)
    (txns_since_last_block : Nat) (force_encoding : Option PeerEncoding) :
    PeerActor :=
  { cfg := cfg
    my_node_info := my_node_info
    peer_info := peer_info
    peer_type := peer_type
    peer_status := .connecting
    protocol_version := cfg.PROTOCOL_VERSION
    genesis_id := 0
    chain_info := ⟨0, 0⟩
    partial_edge_info := partial_edge_info
    txns_since_last_block := txns_since_last_block
    routed_message_cache := []
    protocol_buffers_supported := false
    force_encoding := force_encoding
    tracker_received_blocks := []
    tracker_requested_blocks := []
    framed := []
    stopped := false }

/-- `PeerActor::encoding` (lines 186-197). -/
def PeerActor.encoding (s : PeerActor) : Option PeerEncoding :=
  if s.force_encoding.isSome then s.force_encoding
  else if s.protocol_buffers_supported then some .proto
  else if s.peer_status = .connecting then none
  else some .borsh

/-- `PeerActor::parse_message` (lines 199-209). -/
def PeerActor.parse_message (s : PeerActor) (raw : RawFrame) :
    Option PeerMessage × PeerActor :=
  match s.encoding with
  | some e => (raw.deserialize e, s)
  | none =>
    match raw.deserialize .proto with
    | some m => (some m, { s with protocol_buffers_supported := true })
    | none => (raw.deserialize .borsh, s)

/-- `ctx.stop()`. -/
def PeerActor.stopCtx (s : PeerActor) : PeerActor :=
  { s with stopped := true }

/-- `PeerActor::ban_peer` (lines 315-320): set the status to Banned and
stop; the Banned signal is sent to the peer manager from `stopping`. -/
def PeerActor.ban_peer (s : PeerActor) (reason : ReasonForBan) : PeerActor :=
  { s with peer_status := .banned reason, stopped := true }

/-- `PeerActor::other_peer_id`. -/
def PeerActor.other_peer_id (s : PeerActor) : Option PeerId :=
  s.peer_info.map (fun pi => pi.id)

/-- `Tracker::has_received` (tracker.rs is outside the embedded file;
the spec describes a bounded set of recently received block hashes,
modelled as a list with membership). -/
def PeerActor.tracker_has_received (s : PeerActor) (h : CryptoHash) : Bool :=
  s.tracker_received_blocks.contains h

/-- `PeerActor::send_message_with_encoding` (lines 226-251): skip blocks
already received from this peer, record block requests, emit the frame. -/
def PeerActor.send_message_with_encoding (s : PeerActor) (msg : PeerMessage)
    (enc : PeerEncoding) : PeerActor :=
  match msg with
  | .block b =>
    if s.tracker_has_received b.hash then s
    else { s with framed := s.framed ++ [(enc, msg)] }
  | .blockRequest h =>
    { s with tracker_requested_blocks := h :: s.tracker_requested_blocks,
             framed := s.framed ++ [(enc, msg)] }
  | _ => { s with framed := s.framed ++ [(enc, msg)] }

/-- `PeerActor::send_message` (lines 217-224): with an effective
encoding, transmit once; in dual mode transmit once per encoding. -/
def PeerActor.send_message (s : PeerActor) (msg : PeerMessage) : PeerActor :=
  match s.encoding with
  | some enc => s.send_message_with_encoding msg enc
  | none =>
    (s.send_message_with_encoding msg .proto).send_message_with_encoding msg .borsh

/-- `PeerActor::send_handshake` (lines 272-313): requires a known remote
peer id; fetches chain info from the view client (oracle) and sends a
`Handshake` when `protocol_version` is in `39..=PROTOCOL_VERSION`. -/
def PeerActor.send_handshake (s : PeerActor) (o : Oracle) : PeerActor :=
  match s.peer_info with
  | none => s
  | some pi =>
    if 39 ≤ s.protocol_version ∧ s.protocol_version ≤ s.cfg.PROTOCOL_VERSION then
      s.send_message (.handshake
        { protocol_version := s.protocol_version
          sender_peer_id := s.my_node_info.id
          target_peer_id := pi.id
          sender_listen_port := s.my_node_info.addr
          sender_chain_info := o.chain_info
          partial_edge_info := s.partial_edge_info.getD ⟨0, 0⟩ })
    else s

/-- `PeerActor::should_we_drop_msg` (lines 610-625). -/
def PeerActor.should_we_drop_msg (s : PeerActor) (msg : PeerMessage) : Bool :=
  match msg with
  | .routed m =>
    match m.body with
    | .forwardTx _ => MAX_TRANSACTIONS_PER_BLOCK_MESSAGE < s.txns_since_last_block
    | _ => false
  | _ => false

/-- `PeerMessage::is_view_client_message` (defined in the
network_protocol module, outside the embedded file). Modelled from the
spec: section 4.7 lists the view-client messages, matching the arms of
`receive_view_client_message`. -/
def PeerMessage.is_view_client_message : PeerMessage → Bool
  | .routed m =>
    (match m.body with
     | .txStatusRequest _ _ => true
     | .txStatusResponse _ => true
     | .receiptOutcomeRequest _ => true
     | .stateRequestHeader _ _ => true
     | .stateRequestPart _ _ _ => true
     | _ => false)
  | .blockRequest _ => true
  | .blockHeadersRequest _ => true
  | .epochSyncRequest _ => true
  | .epochSyncFinalizationRequest _ => true
  | _ => false

/-- `PeerMessage::is_client_message` (defined in the network_protocol
module, outside the embedded file). Modelled from the spec: section 4.7
lists the client messages, matching the arms of
`receive_client_message`. -/
def PeerMessage.is_client_message : PeerMessage → Bool
  | .block _ => true
  | .transaction _ => true
  | .blockHeaders _ => true
  | .challenge _ => true
  | .epochSyncResponse _ => true
  | .epochSyncFinalizationResponse _ => true
  | .routed m =>
    (match m.body with
     | .blockApproval _ => true
     | .forwardTx _ => true
     | .stateResponse _ => true
     | .versionedStateResponse _ => true
     | .partialEncodedChunkRequest _ => true
     | .partialEncodedChunkResponse _ => true
     | .partialEncodedChunk _ => true
     | .versionedPartialEncodedChunk _ => true
     | .partialEncodedChunkForward _ => true
     | _ => false)
  | _ => false

/-- The client's verdict continuation shared by all arms of
`receive_client_message` (lines 559-584): a Ban verdict bans the peer,
anything else is logged or ignored. -/
def PeerActor.applyClientVerdict (s : PeerActor) (o : Oracle) : PeerActor :=
  match o.client_verdict with
  | .ban r => s.ban_peer r
  | _ => s

/-- `PeerActor::receive_client_message` (lines 452-585): requires a known
peer id; a Block updates the tracker and the chain height; bodies the
client does not accept are dropped; otherwise the client's verdict is
applied. -/
def PeerActor.receive_client_message (s : PeerActor) (o : Oracle)
    (msg : PeerMessage) : PeerActor :=
  match s.other_peer_id with
  | none => s
  | some _ =>
    match msg with
    | .block b =>
      let s1 := { s with
        tracker_received_blocks := b.hash :: s.tracker_received_blocks,
        chain_info := { s.chain_info with height := max s.chain_info.height b.height } }
      s1.applyClientVerdict o
    | .transaction _ => s.applyClientVerdict o
    | .blockHeaders _ => s.applyClientVerdict o
    | .challenge _ => s.applyClientVerdict o
    | .epochSyncResponse _ => s.applyClientVerdict o
    | .epochSyncFinalizationResponse _ => s.applyClientVerdict o
    | .routed m =>
      if (PeerMessage.routed m).is_client_message then s.applyClientVerdict o
      else s
    | _ => s

/-- `PeerActor::receive_view_client_message` (lines 342-449): forwards
the query to the view client; replies flow back through the peer manager
(`RouteBack`) or the send path. No per-connection state that any claim
mentions is touched, and no verdict can ban, so the model keeps the
state unchanged. -/
def PeerActor.receive_view_client_message (s : PeerActor) : PeerActor :=
  s

/-- `PeerActor::receive_message` (lines 332-340). -/
def PeerActor.receive_message (s : PeerActor) (o : Oracle)
    (msg : PeerMessage) : PeerActor :=
  if msg.is_view_client_message then s.receive_view_client_message
  else if msg.is_client_message then s.receive_client_message o msg
  else s

/-- The dedup-key of a routed message (line 720). -/
def RoutedMessageData.key (m : RoutedMessageData) : RoutedKey :=
  (m.author, m.target, m.signature)

/-- The routed-message dedup block of `StreamHandler::handle`
(lines 717-729): consult the cache (`get` promotes the entry); a hit
within `DROP_DUPLICATED_MESSAGES_PERIOD` drops the message, otherwise
the key is inserted/overwritten with the current time. The block only
mutates the cache, so it returns (dropped-as-duplicate, new cache). -/
def PeerActor.dedupStep (s : PeerActor) (now : Nat) (msg : PeerMessage) :
    Bool × List (RoutedKey × Nat) :=
  match msg with
  | .routed m =>
    match lruGet s.routed_message_cache m.key with
    | (some t, c1) =>
      if now ≤ t + DROP_DUPLICATED_MESSAGES_PERIOD then (true, c1)
      else (false, lruPut ROUTED_MESSAGE_CACHE_SIZE c1 m.key now)
    | (none, c1) => (false, lruPut ROUTED_MESSAGE_CACHE_SIZE c1 m.key now)
  | _ => (false, s.routed_message_cache)

/-- The counter-update block of `StreamHandler::handle` (lines 730-737):
a routed `ForwardTx` increments the shared `txns_since_last_block`
(`usize` wrap-around), a top-level `Block` resets it to zero. The block
only mutates the counter, so it maps the old counter to the new one. -/
def txnCounterStep (txns : Nat) (msg : PeerMessage) : Nat :=
  match msg with
  | .routed m =>
    (match m.body with
     | .forwardTx _ => (txns + 1) % USIZE_MOD
     | _ => txns)
  | .block _ => 0
  | _ => txns

/-- The pre-dispatch filter pipeline of `StreamHandler::handle`
(lines 713-737): the transaction flood-control check, the routed-message
dedup cache, and the `txns_since_last_block` counter updates. Returns
the updated state and whether the message proceeds to dispatch. -/
def PeerActor.preDispatch (s : PeerActor) (now : Nat) (msg : PeerMessage) :
    PeerActor × Bool :=
  if s.should_we_drop_msg msg then (s, false)
  else
    let dedup := s.dedupStep now msg
    if dedup.1 then ({ s with routed_message_cache := dedup.2 }, false)
    else ({ s with routed_message_cache := dedup.2,
                   txns_since_last_block := txnCounterStep s.txns_since_last_block msg }, true)

/-- The `HandshakeFailure` arm of `StreamHandler::handle`
(lines 752-788), which applies in every status: a protocol-version
mismatch may lower `protocol_version` and re-send the handshake (the
early `return` skips the closing `ctx.stop()`); every other path falls
through to `ctx.stop()`. -/
def PeerActor.handleHandshakeFailure (s : PeerActor) (o : Oracle)
    (reason : HandshakeFailureReason) : PeerActor :=
  match reason with
  | .genesisMismatch _ => s.stopCtx
  | .protocolVersionMismatch version oldest_supported_version =>
    let target_version := min version s.cfg.PROTOCOL_VERSION
    if max oldest_supported_version s.cfg.PEER_MIN_ALLOWED_PROTOCOL_VERSION
        ≤ target_version then
      PeerActor.send_handshake { s with protocol_version := target_version } o
    else s.stopCtx
  | .invalidTarget => s.stopCtx

/-- The `(Connecting, Handshake)` arm of `StreamHandler::handle`
(lines 789-905). -/
def PeerActor.handleHandshake (s : PeerActor) (o : Oracle)
    (h : HandshakeData) : PeerActor :=
  if s.cfg.PEER_MIN_ALLOWED_PROTOCOL_VERSION > h.protocol_version ∨
      s.cfg.PROTOCOL_VERSION < h.protocol_version then
    s.send_message (.handshakeFailure s.my_node_info
      (.protocolVersionMismatch s.cfg.PROTOCOL_VERSION
        s.cfg.PEER_MIN_ALLOWED_PROTOCOL_VERSION))
  else
    let s1 := { s with protocol_version := min h.protocol_version s.cfg.PROTOCOL_VERSION }
    if h.sender_chain_info.genesis_id ≠ s1.genesis_id then
      s1.send_message (.handshakeFailure s1.my_node_info
        (.genesisMismatch s1.genesis_id))
    else if h.sender_peer_id = s1.my_node_info.id then
      s1.stopCtx
    else if h.target_peer_id ≠ s1.my_node_info.id then
      s1.send_message (.handshakeFailure s1.my_node_info .invalidTarget)
    else if ¬ o.edge_verify then
      s1.ban_peer .invalidSignature
    else if s1.peer_type = .outbound ∧
        some h.partial_edge_info.nonce ≠ s1.partial_edge_info.map (fun e => e.nonce) then
      s1.stopCtx
    else
      let pi : PeerInfo :=
        { id := h.sender_peer_id, addr := h.sender_listen_port, account_id := none }
      let s2 := { s1 with chain_info := h.sender_chain_info }
      match o.register_resp with
      | .accept edge_info =>
        let s3 := { s2 with peer_info := some pi, peer_status := .ready }
        if s3.peer_type = .inbound then
          PeerActor.send_handshake { s3 with partial_edge_info := edge_info } o
        else s3
      | .invalidNonce e => s2.send_message (.lastEdge e)
      | .reject => s2.stopCtx

/-- The `(Connecting, LastEdge)` arm of `StreamHandler::handle`
(lines 906-940). -/
def PeerActor.handleLastEdge (s : PeerActor) (o : Oracle) : PeerActor :=
  if s.peer_type = .inbound then s.stopCtx
  else if ¬ o.edge_verify then s.stopCtx
  else
    (match o.updated_edge with
     | some ei => PeerActor.send_handshake { s with partial_edge_info := some ei } o
     | none => s)

/-- The status-based dispatch of `StreamHandler::handle`
(lines 751-1049): the big match on `(peer_status, peer_msg)`. -/
def PeerActor.dispatch (s : PeerActor) (o : Oracle) (msg : PeerMessage) :
    PeerActor :=
  match s.peer_status, msg with
  | _, .handshakeFailure _info reason => s.handleHandshakeFailure o reason
  | .connecting, .handshake h => s.handleHandshake o h
  | .connecting, .lastEdge _ => s.handleLastEdge o
  | .ready, .disconnect => s.stopCtx
  | .ready, .handshake _ => s
  | .ready, .peersRequest =>
    if o.peers ≠ [] then s.send_message (.peersResponse o.peers) else s
  | .ready, .peersResponse _ => s
  | .ready, .requestUpdateNonce _ =>
    (match o.nonce_verdict with
     | .edgeUpdate e => s.send_message (.responseUpdateNonce e)
     | .banPeer r => s.ban_peer r
     | .other => s)
  | .ready, .responseUpdateNonce _ =>
    (match o.nonce_verdict with
     | .banPeer r => s.ban_peer r
     | _ => s)
  | .ready, .syncRoutingTable _ => s
  | .ready, .routed m =>
    if ¬ o.routed_verify then s.ban_peer .invalidSignature
    else if o.routed_for_us then s.receive_message o (.routed m)
    else s
  | .ready, m => s.receive_message o m
  | _, _ => s

/-- `StreamHandler::handle` on a successfully framed message
(lines 692-1050): parse, pre-dispatch filters, status-based dispatch. -/
def PeerActor.handleFrame (s : PeerActor) (o : Oracle) (raw : RawFrame) :
    PeerActor :=
  match s.parse_message raw with
  | (none, s1) => s1
  | (some msg, s1) =>
    let pre := s1.preDispatch o.now msg
    if pre.2 then pre.1.dispatch o msg else pre.1

/-- One operation on a live actor. -/
inductive ActorOp
  | recvFrame (o : Oracle) (raw : RawFrame)
  | recvStreamErr (reason : ReasonForBan)
  | pmBanPeer (reason : ReasonForBan)
  | pmUnregisterPeer
  | sendMessage (msg : PeerMessage)

/-- One step of the actor: `StreamHandler::handle` on `Ok`/`Err` items,
the `PeerManagerRequest` handler, and the `SendMessage` handler. After
`ctx.stop()` the actix mailbox is no longer processed, so a stopped
actor no longer steps. -/
def PeerActor.step (s : PeerActor) (op : ActorOp) : PeerActor :=
  if s.stopped then s
  else
    match op with
    | .recvFrame o raw => s.handleFrame o raw
    | .recvStreamErr r => s.ban_peer r
    | .pmBanPeer r => s.ban_peer r
    | .pmUnregisterPeer => s.stopCtx
    | .sendMessage m => s.send_message m

/-- Notifications `Actor::stopping` (lines 656-681) sends to the peer
manager. -/
inductive PmNotification
  | banNote (peer_id : PeerId) (reason : ReasonForBan)
  | unregisterNote (peer_id : PeerId) (peer_type : PeerType) (remove_from_peer_store : Bool)
deriving DecidableEq

/-- `Actor::stopping`: with a known peer, a Banned status produces a Ban
notification, any other status an Unregister notification; with no peer
info nothing is sent. -/
def PeerActor.stopping (s : PeerActor) : List PmNotification :=
  match s.peer_info with
  | some pi =>
    (match s.peer_status with
     | .banned reason => [.banNote pi.id reason]
     | _ => [.unregisterNote pi.id s.peer_type (decide (s.peer_status ≠ .connecting))])
  | none => []

/-- States an actor can actually be in: freshly constructed, or reached
by steps. -/
inductive PeerActor.Reachable : PeerActor → Prop
  | init (cfg : VersionCfg) (mni : PeerInfo) (pi : Option PeerInfo)
      (pt : PeerType) (pei : Option PartialEdgeInfo) (txns : Nat)
      (fe : Option PeerEncoding) :
      PeerActor.Reachable (PeerActor.new cfg mni pi pt pei txns fe)
  | next (s : PeerActor) (op : ActorOp) :
      PeerActor.Reachable s → PeerActor.Reachable (s.step op)

/-! ### Helper observations -/

/-- Rank of a status in the `Connecting → Ready → Banned` progression. -/
def PeerStatus.rank : PeerStatus → Nat
  | .connecting => 0
  | .ready => 1
  | .banned _ => 2

/-- Whether `send_message_with_encoding` suppresses this message
(a Block already received from this peer, lines 231-237). -/
def PeerActor.sendSkips (s : PeerActor) (m : PeerMessage) : Bool :=
  match m with
  | .block b => s.tracker_has_received b.hash
  | _ => false

/-- The tracker's request set after recording this message. -/
def PeerActor.requestedAfter (s : PeerActor) (m : PeerMessage) : List CryptoHash :=
  match m with
  | .blockRequest h => h :: s.tracker_requested_blocks
  | _ => s.tracker_requested_blocks

/-- Whether the pre-dispatch filters drop every message of a run:
fold the filter pipeline over a list of (arrival-time, routed message)
pairs and require that none of them proceeds to dispatch. -/
def PeerActor.allDroppedPre (s : PeerActor) : List (Nat × RoutedMessageData) → Bool
  | [] => true
  | (t, rm) :: rest =>
    let pre := s.preDispatch t (.routed rm)
    !pre.2 && pre.1.allDroppedPre rest

/-- The handshake message `send_handshake` emits (given the view-client
chain info in the oracle). -/
def PeerActor.handshakeMsg (s : PeerActor) (o : Oracle) (pi : PeerInfo) : HandshakeData :=
  { protocol_version := s.protocol_version
    sender_peer_id := s.my_node_info.id
    target_peer_id := pi.id
    sender_listen_port := s.my_node_info.addr
    sender_chain_info := o.chain_info
    partial_edge_info := s.partial_edge_info.getD ⟨0, 0⟩ }

/-! ### Concrete fixtures used by the witnesses and counterexamples -/

def testCfg : VersionCfg := ⟨60, 55⟩

def testNodeA : PeerInfo := ⟨0, some 41, none⟩

def testNodeB : PeerInfo := ⟨1, some 42, none⟩

def testOracle : Oracle :=
  { now := 0, chain_info := ⟨0, 100⟩, register_resp := .accept none,
    routed_verify := true, routed_for_us := true, client_verdict := .noResponse,
    edge_verify := true, updated_edge := none, peers := [], nonce_verdict := .other }

/-- An outbound actor of node A towards node B, fresh from `new`. -/
def testOutbound : PeerActor :=
  PeerActor.new testCfg testNodeA (some testNodeB) .outbound (some ⟨7, 77⟩) 0 none

def testHandshakeB : HandshakeData := ⟨60, 1, 0, some 42, ⟨0, 100⟩, ⟨7, 88⟩⟩

/-- `testOutbound` after receiving B's handshake and a successful
registration: a Ready connection. -/
def testReady : PeerActor :=
  testOutbound.step (.recvFrame testOracle ⟨none, some (.handshake testHandshakeB)⟩)

/-- A routed ForwardTx from B addressed to A. -/
def dupTx : RoutedMessageData := ⟨1, .peerId 0, 500, .forwardTx 3⟩

def dupRaw : RawFrame := ⟨none, some (.routed dupTx)⟩

/-- Like `testOutbound` but created while the shared transaction counter
(an `Arc` owned by the caller) already holds 1001. -/
def floodState : PeerActor :=
  PeerActor.new testCfg testNodeA (some testNodeB) .outbound (some ⟨7, 77⟩) 1001 none

/-- Like `testOutbound` but with the shared counter at 5. -/
def c2s0 : PeerActor :=
  PeerActor.new testCfg testNodeA (some testNodeB) .outbound (some ⟨7, 77⟩) 5 none

def c2s1 : PeerActor :=
  c2s0.step (.recvFrame testOracle ⟨none, some (.handshake testHandshakeB)⟩)

def oracleAt (t : Nat) : Oracle := { testOracle with now := t }

/-- `c2s1` after a first ForwardTx at t = 100 ms (counter 5 → 6). -/
def c2s2 : PeerActor := c2s1.step (.recvFrame (oracleAt 100) dupRaw)

/-- `c2s2` after an identical ForwardTx at t = 110 ms (a dedup duplicate). -/
def c2s3 : PeerActor := c2s2.step (.recvFrame (oracleAt 110) dupRaw)

/-- An inbound actor banned by a stream error before its handshake:
Banned with `peer_info = none`. -/
def bannedNoInfo : PeerActor :=
  (PeerActor.new testCfg testNodeA none .inbound none 0 none).step
    (.recvStreamErr .invalidSignature)

/-- A Ready connection banned by the peer manager. -/
def bannedReady : PeerActor := testReady.step (.pmBanPeer .abusive)

/-- `testReady` after receiving block 99 (the tracker records its hash). -/
def c3s2 : PeerActor := testReady.step (.recvFrame testOracle ⟨none, some (.block ⟨99, 5⟩)⟩)

/-- `c3s2` asked to send that same block back. -/
def c3s3 : PeerActor := c3s2.step (.sendMessage (.block ⟨99, 5⟩))

theorem PeerActor.smwe_spec (s : PeerActor) (m : PeerMessage) (e : PeerEncoding) :
    s.send_message_with_encoding m e =
      { s with framed := s.framed ++ (if s.sendSkips m then [] else [(e, m)]),
               tracker_requested_blocks :=
                 (if s.sendSkips m then s.tracker_requested_blocks else s.requestedAfter m) } := by
  cases m <;>
    simp [PeerActor.send_message_with_encoding, PeerActor.sendSkips, PeerActor.requestedAfter]
  case block b =>
    split <;> simp_all

theorem PeerActor.send_message_fields (s : PeerActor) (m : PeerMessage) :
    (s.send_message m).peer_status = s.peer_status ∧
    (s.send_message m).stopped = s.stopped ∧
    (s.send_message m).protocol_buffers_supported = s.protocol_buffers_supported ∧
    (s.send_message m).routed_message_cache = s.routed_message_cache ∧
    (s.send_message m).txns_since_last_block = s.txns_since_last_block ∧
    (s.send_message m).tracker_received_blocks = s.tracker_received_blocks ∧
    (s.send_message m).peer_info = s.peer_info ∧
    (s.send_message m).protocol_version = s.protocol_version ∧
    (s.send_message m).force_encoding = s.force_encoding ∧
    (s.send_message m).peer_type = s.peer_type ∧
    (s.send_message m).cfg = s.cfg := by
  unfold PeerActor.send_message
  cases s.encoding <;> simp [PeerActor.smwe_spec]

@[simp] theorem PeerActor.sm_peer_status (s : PeerActor) (m : PeerMessage) :
    (s.send_message m).peer_status = s.peer_status :=
  (PeerActor.send_message_fields s m).1

@[simp] theorem PeerActor.sm_stopped (s : PeerActor) (m : PeerMessage) :
    (s.send_message m).stopped = s.stopped :=
  (PeerActor.send_message_fields s m).2.1

@[simp] theorem PeerActor.sm_pbs (s : PeerActor) (m : PeerMessage) :
    (s.send_message m).protocol_buffers_supported = s.protocol_buffers_supported :=
  (PeerActor.send_message_fields s m).2.2.1

@[simp] theorem PeerActor.sm_cache (s : PeerActor) (m : PeerMessage) :
    (s.send_message m).routed_message_cache = s.routed_message_cache :=
  (PeerActor.send_message_fields s m).2.2.2.1

@[simp] theorem PeerActor.sm_txns (s : PeerActor) (m : PeerMessage) :
    (s.send_message m).txns_since_last_block = s.txns_since_last_block :=
  (PeerActor.send_message_fields s m).2.2.2.2.1

@[simp] theorem PeerActor.sm_tracker_received (s : PeerActor) (m : PeerMessage) :
    (s.send_message m).tracker_received_blocks = s.tracker_received_blocks :=
  (PeerActor.send_message_fields s m).2.2.2.2.2.1

@[simp] theorem PeerActor.sm_peer_info (s : PeerActor) (m : PeerMessage) :
    (s.send_message m).peer_info = s.peer_info :=
  (PeerActor.send_message_fields s m).2.2.2.2.2.2.1

@[simp] theorem PeerActor.sm_protocol_version (s : PeerActor) (m : PeerMessage) :
    (s.send_message m).protocol_version = s.protocol_version :=
  (PeerActor.send_message_fields s m).2.2.2.2.2.2.2.1

@[simp] theorem PeerActor.sm_force_encoding (s : PeerActor) (m : PeerMessage) :
    (s.send_message m).force_encoding = s.force_encoding :=
  (PeerActor.send_message_fields s m).2.2.2.2.2.2.2.2.1

@[simp] theorem PeerActor.sm_peer_type (s : PeerActor) (m : PeerMessage) :
    (s.send_message m).peer_type = s.peer_type :=
  (PeerActor.send_message_fields s m).2.2.2.2.2.2.2.2.2.1

@[simp] theorem PeerActor.sm_cfg (s : PeerActor) (m : PeerMessage) :
    (s.send_message m).cfg = s.cfg :=
  (PeerActor.send_message_fields s m).2.2.2.2.2.2.2.2.2.2

theorem PeerActor.send_handshake_fields (s : PeerActor) (o : Oracle) :
    (s.send_handshake o).peer_status = s.peer_status ∧
    (s.send_handshake o).stopped = s.stopped ∧
    (s.send_handshake o).protocol_buffers_supported = s.protocol_buffers_supported ∧
    (s.send_handshake o).routed_message_cache = s.routed_message_cache ∧
    (s.send_handshake o).txns_since_last_block = s.txns_since_last_block ∧
    (s.send_handshake o).tracker_received_blocks = s.tracker_received_blocks ∧
    (s.send_handshake o).peer_info = s.peer_info ∧
    (s.send_handshake o).protocol_version = s.protocol_version := by
  unfold PeerActor.send_handshake
  cases hpi : s.peer_info <;> simp [hpi]
  split <;> simp [hpi]

@[simp] theorem PeerActor.sh_peer_status (s : PeerActor) (o : Oracle) :
    (s.send_handshake o).peer_status = s.peer_status :=
  (PeerActor.send_handshake_fields s o).1

@[simp] theorem PeerActor.sh_stopped (s : PeerActor) (o : Oracle) :
    (s.send_handshake o).stopped = s.stopped :=
  (PeerActor.send_handshake_fields s o).2.1

@[simp] theorem PeerActor.sh_pbs (s : PeerActor) (o : Oracle) :
    (s.send_handshake o).protocol_buffers_supported = s.protocol_buffers_supported :=
  (PeerActor.send_handshake_fields s o).2.2.1

@[simp] theorem PeerActor.sh_cache (s : PeerActor) (o : Oracle) :
    (s.send_handshake o).routed_message_cache = s.routed_message_cache :=
  (PeerActor.send_handshake_fields s o).2.2.2.1

@[simp] theorem PeerActor.sh_txns (s : PeerActor) (o : Oracle) :
    (s.send_handshake o).txns_since_last_block = s.txns_since_last_block :=
  (PeerActor.send_handshake_fields s o).2.2.2.2.1

@[simp] theorem PeerActor.sh_tracker_received (s : PeerActor) (o : Oracle) :
    (s.send_handshake o).tracker_received_blocks = s.tracker_received_blocks :=
  (PeerActor.send_handshake_fields s o).2.2.2.2.2.1

@[simp] theorem PeerActor.sh_peer_info (s : PeerActor) (o : Oracle) :
    (s.send_handshake o).peer_info = s.peer_info :=
  (PeerActor.send_handshake_fields s o).2.2.2.2.2.2.1

@[simp] theorem PeerActor.sh_protocol_version (s : PeerActor) (o : Oracle) :
    (s.send_handshake o).protocol_version = s.protocol_version :=
  (PeerActor.send_handshake_fields s o).2.2.2.2.2.2.2

@[simp] theorem PeerActor.stopCtx_peer_status (s : PeerActor) :
    s.stopCtx.peer_status = s.peer_status := rfl

@[simp] theorem PeerActor.stopCtx_stopped (s : PeerActor) :
    s.stopCtx.stopped = true := rfl

@[simp] theorem PeerActor.stopCtx_pbs (s : PeerActor) :
    s.stopCtx.protocol_buffers_supported = s.protocol_buffers_supported := rfl

@[simp] theorem PeerActor.stopCtx_cache (s : PeerActor) :
    s.stopCtx.routed_message_cache = s.routed_message_cache := rfl

@[simp] theorem PeerActor.stopCtx_txns (s : PeerActor) :
    s.stopCtx.txns_since_last_block = s.txns_since_last_block := rfl

@[simp] theorem PeerActor.stopCtx_tracker_received (s : PeerActor) :
    s.stopCtx.tracker_received_blocks = s.tracker_received_blocks := rfl

@[simp] theorem PeerActor.stopCtx_protocol_version (s : PeerActor) :
    s.stopCtx.protocol_version = s.protocol_version := rfl

@[simp] theorem PeerActor.ban_peer_peer_status (s : PeerActor) (r : ReasonForBan) :
    (s.ban_peer r).peer_status = .banned r := rfl

@[simp] theorem PeerActor.ban_peer_stopped (s : PeerActor) (r : ReasonForBan) :
    (s.ban_peer r).stopped = true := rfl

@[simp] theorem PeerActor.ban_peer_pbs (s : PeerActor) (r : ReasonForBan) :
    (s.ban_peer r).protocol_buffers_supported = s.protocol_buffers_supported := rfl

@[simp] theorem PeerActor.ban_peer_cache (s : PeerActor) (r : ReasonForBan) :
    (s.ban_peer r).routed_message_cache = s.routed_message_cache := rfl

@[simp] theorem PeerActor.ban_peer_txns (s : PeerActor) (r : ReasonForBan) :
    (s.ban_peer r).txns_since_last_block = s.txns_since_last_block := rfl

@[simp] theorem PeerActor.ban_peer_tracker_received (s : PeerActor) (r : ReasonForBan) :
    (s.ban_peer r).tracker_received_blocks = s.tracker_received_blocks := rfl

theorem PeerActor.preDispatch_shape (s : PeerActor) (now : Nat) (m : PeerMessage) :
    ∃ c t, (s.preDispatch now m).1 =
      { s with routed_message_cache := c, txns_since_last_block := t } := by
  unfold PeerActor.preDispatch
  by_cases h1 : s.should_we_drop_msg m <;> simp [h1]
  · exact ⟨s.routed_message_cache, s.txns_since_last_block, rfl⟩
  · split
    · exact ⟨_, _, rfl⟩
    · exact ⟨_, _, rfl⟩

@[simp] theorem PeerActor.preDispatch_peer_status (s : PeerActor) (now : Nat) (m : PeerMessage) :
    (s.preDispatch now m).1.peer_status = s.peer_status := by
  obtain ⟨c, t, h⟩ := PeerActor.preDispatch_shape s now m
  rw [h]

@[simp] theorem PeerActor.preDispatch_stopped (s : PeerActor) (now : Nat) (m : PeerMessage) :
    (s.preDispatch now m).1.stopped = s.stopped := by
  obtain ⟨c, t, h⟩ := PeerActor.preDispatch_shape s now m
  rw [h]

@[simp] theorem PeerActor.preDispatch_pbs (s : PeerActor) (now : Nat) (m : PeerMessage) :
    (s.preDispatch now m).1.protocol_buffers_supported = s.protocol_buffers_supported := by
  obtain ⟨c, t, h⟩ := PeerActor.preDispatch_shape s now m
  rw [h]

@[simp] theorem PeerActor.preDispatch_tracker_received (s : PeerActor) (now : Nat) (m : PeerMessage) :
    (s.preDispatch now m).1.tracker_received_blocks = s.tracker_received_blocks := by
  obtain ⟨c, t, h⟩ := PeerActor.preDispatch_shape s now m
  rw [h]

@[simp] theorem PeerActor.preDispatch_framed (s : PeerActor) (now : Nat) (m : PeerMessage) :
    (s.preDispatch now m).1.framed = s.framed := by
  obtain ⟨c, t, h⟩ := PeerActor.preDispatch_shape s now m
  rw [h]

@[simp] theorem PeerActor.preDispatch_peer_info (s : PeerActor) (now : Nat) (m : PeerMessage) :
    (s.preDispatch now m).1.peer_info = s.peer_info := by
  obtain ⟨c, t, h⟩ := PeerActor.preDispatch_shape s now m
  rw [h]

@[simp] theorem PeerActor.preDispatch_cfg (s : PeerActor) (now : Nat) (m : PeerMessage) :
    (s.preDispatch now m).1.cfg = s.cfg := by
  obtain ⟨c, t, h⟩ := PeerActor.preDispatch_shape s now m
  rw [h]

@[simp] theorem PeerActor.preDispatch_force_encoding (s : PeerActor) (now : Nat) (m : PeerMessage) :
    (s.preDispatch now m).1.force_encoding = s.force_encoding := by
  obtain ⟨c, t, h⟩ := PeerActor.preDispatch_shape s now m
  rw [h]

theorem PeerActor.parse_message_cases (s : PeerActor) (raw : RawFrame) :
    (s.parse_message raw).2 = s ∨
    (s.parse_message raw).2 = { s with protocol_buffers_supported := true } := by
  unfold PeerActor.parse_message
  cases s.encoding <;> simp
  cases raw.deserialize .proto <;> simp

@[simp] theorem PeerActor.parse_message_peer_status (s : PeerActor) (raw : RawFrame) :
    (s.parse_message raw).2.peer_status = s.peer_status := by
  rcases PeerActor.parse_message_cases s raw with h | h <;> rw [h]

@[simp] theorem PeerActor.parse_message_stopped (s : PeerActor) (raw : RawFrame) :
    (s.parse_message raw).2.stopped = s.stopped := by
  rcases PeerActor.parse_message_cases s raw with h | h <;> rw [h]

@[simp] theorem PeerActor.parse_message_cache (s : PeerActor) (raw : RawFrame) :
    (s.parse_message raw).2.routed_message_cache = s.routed_message_cache := by
  rcases PeerActor.parse_message_cases s raw with h | h <;> rw [h]

@[simp] theorem PeerActor.parse_message_txns (s : PeerActor) (raw : RawFrame) :
    (s.parse_message raw).2.txns_since_last_block = s.txns_since_last_block := by
  rcases PeerActor.parse_message_cases s raw with h | h <;> rw [h]

@[simp] theorem PeerActor.parse_message_tracker_received (s : PeerActor) (raw : RawFrame) :
    (s.parse_message raw).2.tracker_received_blocks = s.tracker_received_blocks := by
  rcases PeerActor.parse_message_cases s raw with h | h <;> rw [h]

theorem PeerActor.parse_message_pbs_mono (s : PeerActor) (raw : RawFrame)
    (h : s.protocol_buffers_supported = true) :
    (s.parse_message raw).2.protocol_buffers_supported = true := by
  rcases PeerActor.parse_message_cases s raw with h2 | h2 <;> simp [h2, h]

theorem PeerActor.acv_fields (s : PeerActor) (o : Oracle) :
    ((s.applyClientVerdict o).protocol_buffers_supported = s.protocol_buffers_supported) ∧
    ((s.applyClientVerdict o).routed_message_cache = s.routed_message_cache) ∧
    ((s.applyClientVerdict o).txns_since_last_block = s.txns_since_last_block) ∧
    ((s.applyClientVerdict o).framed = s.framed) ∧
    ((s.applyClientVerdict o).peer_status = s.peer_status ∨
      ((∃ r, (s.applyClientVerdict o).peer_status = .banned r) ∧
        (s.applyClientVerdict o).stopped = true)) := by
  unfold PeerActor.applyClientVerdict
  cases o.client_verdict <;> simp [PeerActor.ban_peer]

theorem PeerActor.rcm_fields (s : PeerActor) (o : Oracle) (m : PeerMessage) :
    ((s.receive_client_message o m).protocol_buffers_supported = s.protocol_buffers_supported) ∧
    ((s.receive_client_message o m).routed_message_cache = s.routed_message_cache) ∧
    ((s.receive_client_message o m).txns_since_last_block = s.txns_since_last_block) ∧
    ((s.receive_client_message o m).framed = s.framed) ∧
    ((s.receive_client_message o m).peer_status = s.peer_status ∨
      ((∃ r, (s.receive_client_message o m).peer_status = .banned r) ∧
        (s.receive_client_message o m).stopped = true)) := by
  unfold PeerActor.receive_client_message
  cases hpi : s.other_peer_id <;> simp [hpi]
  cases m <;> simp
  case block b => exact PeerActor.acv_fields _ o
  case transaction t => exact PeerActor.acv_fields _ o
  case blockHeaders hs => exact PeerActor.acv_fields _ o
  case challenge c => exact PeerActor.acv_fields _ o
  case epochSyncResponse e => exact PeerActor.acv_fields _ o
  case epochSyncFinalizationResponse e => exact PeerActor.acv_fields _ o
  case routed rm =>
    split
    · exact PeerActor.acv_fields _ o
    · simp

theorem PeerActor.receive_message_fields (s : PeerActor) (o : Oracle) (m : PeerMessage) :
    ((s.receive_message o m).protocol_buffers_supported = s.protocol_buffers_supported) ∧
    ((s.receive_message o m).routed_message_cache = s.routed_message_cache) ∧
    ((s.receive_message o m).txns_since_last_block = s.txns_since_last_block) ∧
    ((s.receive_message o m).framed = s.framed) ∧
    ((s.receive_message o m).peer_status = s.peer_status ∨
      ((∃ r, (s.receive_message o m).peer_status = .banned r) ∧
        (s.receive_message o m).stopped = true)) := by
  unfold PeerActor.receive_message PeerActor.receive_view_client_message
  split
  · simp
  · split
    · exact PeerActor.rcm_fields s o m
    · simp

@[simp] theorem PeerActor.rm_pbs (s : PeerActor) (o : Oracle) (m : PeerMessage) :
    (s.receive_message o m).protocol_buffers_supported = s.protocol_buffers_supported :=
  (PeerActor.receive_message_fields s o m).1

@[simp] theorem PeerActor.rm_cache (s : PeerActor) (o : Oracle) (m : PeerMessage) :
    (s.receive_message o m).routed_message_cache = s.routed_message_cache :=
  (PeerActor.receive_message_fields s o m).2.1

@[simp] theorem PeerActor.rm_txns (s : PeerActor) (o : Oracle) (m : PeerMessage) :
    (s.receive_message o m).txns_since_last_block = s.txns_since_last_block :=
  (PeerActor.receive_message_fields s o m).2.2.1

@[simp] theorem PeerActor.rm_framed (s : PeerActor) (o : Oracle) (m : PeerMessage) :
    (s.receive_message o m).framed = s.framed :=
  (PeerActor.receive_message_fields s o m).2.2.2.1

theorem PeerActor.rm_status (s : PeerActor) (o : Oracle) (m : PeerMessage) :
    (s.receive_message o m).peer_status = s.peer_status ∨
      ((∃ r, (s.receive_message o m).peer_status = .banned r) ∧
        (s.receive_message o m).stopped = true) :=
  (PeerActor.receive_message_fields s o m).2.2.2.2

theorem PeerActor.hhf_fields (s : PeerActor) (o : Oracle) (reason : HandshakeFailureReason) :
    ((s.handleHandshakeFailure o reason).peer_status = s.peer_status) ∧
    ((s.handleHandshakeFailure o reason).protocol_buffers_supported = s.protocol_buffers_supported) ∧
    ((s.handleHandshakeFailure o reason).routed_message_cache = s.routed_message_cache) ∧
    ((s.handleHandshakeFailure o reason).txns_since_last_block = s.txns_since_last_block) ∧
    ((s.handleHandshakeFailure o reason).tracker_received_blocks = s.tracker_received_blocks) := by
  unfold PeerActor.handleHandshakeFailure
  cases reason <;> simp
  split <;> simp

@[simp] theorem PeerActor.hhf_status (s : PeerActor) (o : Oracle) (r : HandshakeFailureReason) :
    (s.handleHandshakeFailure o r).peer_status = s.peer_status :=
  (PeerActor.hhf_fields s o r).1

@[simp] theorem PeerActor.hhf_pbs (s : PeerActor) (o : Oracle) (r : HandshakeFailureReason) :
    (s.handleHandshakeFailure o r).protocol_buffers_supported = s.protocol_buffers_supported :=
  (PeerActor.hhf_fields s o r).2.1

@[simp] theorem PeerActor.hhf_cache (s : PeerActor) (o : Oracle) (r : HandshakeFailureReason) :
    (s.handleHandshakeFailure o r).routed_message_cache = s.routed_message_cache :=
  (PeerActor.hhf_fields s o r).2.2.1

@[simp] theorem PeerActor.hhf_txns (s : PeerActor) (o : Oracle) (r : HandshakeFailureReason) :
    (s.handleHandshakeFailure o r).txns_since_last_block = s.txns_since_last_block :=
  (PeerActor.hhf_fields s o r).2.2.2.1

@[simp] theorem PeerActor.hhf_tracker_received (s : PeerActor) (o : Oracle) (r : HandshakeFailureReason) :
    (s.handleHandshakeFailure o r).tracker_received_blocks = s.tracker_received_blocks :=
  (PeerActor.hhf_fields s o r).2.2.2.2

theorem PeerActor.hle_fields (s : PeerActor) (o : Oracle) :
    ((s.handleLastEdge o).peer_status = s.peer_status) ∧
    ((s.handleLastEdge o).protocol_buffers_supported = s.protocol_buffers_supported) ∧
    ((s.handleLastEdge o).routed_message_cache = s.routed_message_cache) ∧
    ((s.handleLastEdge o).txns_since_last_block = s.txns_since_last_block) ∧
    ((s.handleLastEdge o).tracker_received_blocks = s.tracker_received_blocks) := by
  unfold PeerActor.handleLastEdge
  split
  · simp
  · split
    · simp
    · cases o.updated_edge <;> simp

@[simp] theorem PeerActor.hle_status (s : PeerActor) (o : Oracle) :
    (s.handleLastEdge o).peer_status = s.peer_status :=
  (PeerActor.hle_fields s o).1

@[simp] theorem PeerActor.hle_pbs (s : PeerActor) (o : Oracle) :
    (s.handleLastEdge o).protocol_buffers_supported = s.protocol_buffers_supported :=
  (PeerActor.hle_fields s o).2.1

@[simp] theorem PeerActor.hle_cache (s : PeerActor) (o : Oracle) :
    (s.handleLastEdge o).routed_message_cache = s.routed_message_cache :=
  (PeerActor.hle_fields s o).2.2.1

@[simp] theorem PeerActor.hle_txns (s : PeerActor) (o : Oracle) :
    (s.handleLastEdge o).txns_since_last_block = s.txns_since_last_block :=
  (PeerActor.hle_fields s o).2.2.2.1

@[simp] theorem PeerActor.hle_tracker_received (s : PeerActor) (o : Oracle) :
    (s.handleLastEdge o).tracker_received_blocks = s.tracker_received_blocks :=
  (PeerActor.hle_fields s o).2.2.2.2

theorem PeerActor.hh_fields (s : PeerActor) (o : Oracle) (h : HandshakeData) :
    ((s.handleHandshake o h).protocol_buffers_supported = s.protocol_buffers_supported) ∧
    ((s.handleHandshake o h).routed_message_cache = s.routed_message_cache) ∧
    ((s.handleHandshake o h).txns_since_last_block = s.txns_since_last_block) ∧
    ((s.handleHandshake o h).tracker_received_blocks = s.tracker_received_blocks) ∧
    ((s.handleHandshake o h).peer_status = s.peer_status ∨
      ((∃ r, (s.handleHandshake o h).peer_status = .banned r) ∧
        (s.handleHandshake o h).stopped = true) ∨
      (s.handleHandshake o h).peer_status = .ready) := by
  unfold PeerActor.handleHandshake
  split
  · simp
  · dsimp only
    split
    · simp
    · split
      · simp
      · split
        · simp
        · split
          · simp
          · split
            · simp
            · cases o.register_resp
              case accept ei =>
                dsimp only
                split <;> simp
              case invalidNonce e => simp
              case reject => simp

@[simp] theorem PeerActor.hh_pbs (s : PeerActor) (o : Oracle) (h : HandshakeData) :
    (s.handleHandshake o h).protocol_buffers_supported = s.protocol_buffers_supported :=
  (PeerActor.hh_fields s o h).1

@[simp] theorem PeerActor.hh_cache (s : PeerActor) (o : Oracle) (h : HandshakeData) :
    (s.handleHandshake o h).routed_message_cache = s.routed_message_cache :=
  (PeerActor.hh_fields s o h).2.1

@[simp] theorem PeerActor.hh_txns (s : PeerActor) (o : Oracle) (h : HandshakeData) :
    (s.handleHandshake o h).txns_since_last_block = s.txns_since_last_block :=
  (PeerActor.hh_fields s o h).2.2.1

@[simp] theorem PeerActor.hh_tracker_received (s : PeerActor) (o : Oracle) (h : HandshakeData) :
    (s.handleHandshake o h).tracker_received_blocks = s.tracker_received_blocks :=
  (PeerActor.hh_fields s o h).2.2.2.1

theorem PeerActor.hh_status (s : PeerActor) (o : Oracle) (h : HandshakeData) :
    (s.handleHandshake o h).peer_status = s.peer_status ∨
      ((∃ r, (s.handleHandshake o h).peer_status = .banned r) ∧
        (s.handleHandshake o h).stopped = true) ∨
      (s.handleHandshake o h).peer_status = .ready :=
  (PeerActor.hh_fields s o h).2.2.2.2

theorem PeerActor.dispatch_pbs (s : PeerActor) (o : Oracle) (m : PeerMessage) :
    (s.dispatch o m).protocol_buffers_supported = s.protocol_buffers_supported := by
  unfold PeerActor.dispatch
  cases hst : s.peer_status <;> cases m <;> simp [hst]
  all_goals try (cases o.nonce_verdict <;> simp)
  all_goals try (split <;> (try split) <;> simp)

theorem PeerActor.dispatch_cache (s : PeerActor) (o : Oracle) (m : PeerMessage) :
    (s.dispatch o m).routed_message_cache = s.routed_message_cache := by
  unfold PeerActor.dispatch
  cases hst : s.peer_status <;> cases m <;> simp [hst]
  all_goals try (cases o.nonce_verdict <;> simp)
  all_goals try (split <;> (try split) <;> simp)

theorem PeerActor.dispatch_txns (s : PeerActor) (o : Oracle) (m : PeerMessage) :
    (s.dispatch o m).txns_since_last_block = s.txns_since_last_block := by
  unfold PeerActor.dispatch
  cases hst : s.peer_status <;> cases m <;> simp [hst]
  all_goals try (cases o.nonce_verdict <;> simp)
  all_goals try (split <;> (try split) <;> simp)

theorem PeerActor.rm_status_goal (s : PeerActor) (o : Oracle) (m : PeerMessage)
    (hst : s.peer_status = .ready) :
    (s.receive_message o m).peer_status = .ready ∨
    ((∃ r, (s.receive_message o m).peer_status = .banned r) ∧
      (s.receive_message o m).stopped = true) := by
  rcases PeerActor.rm_status s o m with h1 | h1
  · exact Or.inl (h1.trans hst)
  · exact Or.inr h1

theorem PeerActor.dispatch_status (s : PeerActor) (o : Oracle) (m : PeerMessage) :
    (s.dispatch o m).peer_status = s.peer_status ∨
    ((∃ r, (s.dispatch o m).peer_status = .banned r) ∧ (s.dispatch o m).stopped = true) ∨
    (s.peer_status = .connecting ∧ (s.dispatch o m).peer_status = .ready) := by
  unfold PeerActor.dispatch
  cases hst : s.peer_status <;> cases m <;> simp [hst]
  case connecting.handshake h =>
    rcases PeerActor.hh_status s o h with h1 | h1 | h1
    · exact Or.inl (by rw [h1, hst])
    · exact Or.inr (Or.inl h1)
    · exact Or.inr (Or.inr h1)
  case ready.peersRequest =>
    split <;> simp [hst]
  case ready.requestUpdateNonce e =>
    cases o.nonce_verdict <;> simp [hst]
  case ready.responseUpdateNonce e =>
    cases o.nonce_verdict <;> simp [hst]
  case ready.routed rm =>
    split
    · simp
    · split
      · exact PeerActor.rm_status_goal s o _ hst
      · exact Or.inl hst
  all_goals exact PeerActor.rm_status_goal s o _ hst

theorem length_filter_not_lt (p : RoutedKey × Nat → Prop) [DecidablePred p]
    (l : List (RoutedKey × Nat)) (e : RoutedKey × Nat)
    (h : l.find? (fun x => p x) = some e) :
    (l.filter (fun x => ¬ p x)).length < l.length := by
  induction l with
  | nil => simp at h
  | cons a t ih =>
    by_cases hp : p a
    · simp only [List.filter_cons, hp]
      simp only [not_true, decide_not, List.length_cons]
      have hle := List.length_filter_le (fun x : RoutedKey × Nat => decide (¬ p x)) t
      have : (List.filter (fun x => decide (¬ p x)) t).length < t.length + 1 :=
        Nat.lt_succ_of_le hle
      simpa using this
    · rw [List.find?_cons_of_neg _ (by simpa using hp)] at h
      simp only [List.filter_cons, hp]
      simp only [not_false_iff, List.length_cons]
      have := ih h
      simpa using Nat.succ_lt_succ this

theorem lruGet_length_le (entries : List (RoutedKey × Nat)) (k : RoutedKey) :
    ((lruGet entries k).2).length ≤ entries.length := by
  unfold lruGet
  cases hf : entries.find? (fun e => e.1 = k) with
  | none => simp
  | some e =>
    simp only [List.length_cons]
    exact length_filter_not_lt (fun x => x.1 = k) entries e hf

theorem lruPut_length_le (cap : Nat) (entries : List (RoutedKey × Nat))
    (k : RoutedKey) (v : Nat) :
    (lruPut cap entries k v).length ≤ cap := by
  unfold lruPut
  simp [List.length_take]

theorem PeerActor.dedupStep_length (s : PeerActor) (now : Nat) (m : PeerMessage) :
    ((s.dedupStep now m).2).length ≤
      max s.routed_message_cache.length ROUTED_MESSAGE_CACHE_SIZE := by
  unfold PeerActor.dedupStep
  cases m <;> simp
  case routed rm =>
    cases hg : lruGet s.routed_message_cache rm.key with
    | mk t? c1 =>
      have hle : c1.length ≤ s.routed_message_cache.length := by
        have := lruGet_length_le s.routed_message_cache rm.key
        rw [hg] at this
        exact this
      cases t? <;> simp
      · exact Or.inr (lruPut_length_le _ _ _ _)
      · split
        · exact Or.inl hle
        · exact Or.inr (lruPut_length_le _ _ _ _)

theorem PeerActor.preDispatch_cache_bound (s : PeerActor) (now : Nat) (m : PeerMessage)
    (h : s.routed_message_cache.length ≤ ROUTED_MESSAGE_CACHE_SIZE) :
    ((s.preDispatch now m).1).routed_message_cache.length ≤ ROUTED_MESSAGE_CACHE_SIZE := by
  unfold PeerActor.preDispatch
  have hd := PeerActor.dedupStep_length s now m
  rw [max_eq_right h] at hd
  split
  · exact h
  · dsimp only
    split <;> exact hd

theorem PeerActor.handleFrame_status (s : PeerActor) (o : Oracle) (raw : RawFrame) :
    (s.handleFrame o raw).peer_status = s.peer_status ∨
    ((∃ r, (s.handleFrame o raw).peer_status = .banned r) ∧
      (s.handleFrame o raw).stopped = true) ∨
    (s.peer_status = .connecting ∧ (s.handleFrame o raw).peer_status = .ready) := by
  unfold PeerActor.handleFrame
  cases hp : s.parse_message raw with
  | mk msg? s1 =>
    have hs1 : s1.peer_status = s.peer_status := by
      have := PeerActor.parse_message_peer_status s raw
      rw [hp] at this
      exact this
    cases msg? with
    | none => exact Or.inl hs1
    | some msg =>
      simp only
      split
      · rcases PeerActor.dispatch_status (s1.preDispatch o.now msg).1 o msg with h1 | h1 | h1
        · exact Or.inl (by rw [h1, PeerActor.preDispatch_peer_status, hs1])
        · exact Or.inr (Or.inl h1)
        · refine Or.inr (Or.inr ⟨?_, h1.2⟩)
          rw [PeerActor.preDispatch_peer_status, hs1] at h1
          exact h1.1
      · exact Or.inl (by rw [PeerActor.preDispatch_peer_status, hs1])

theorem PeerActor.step_status (s : PeerActor) (op : ActorOp) :
    (s.step op).peer_status = s.peer_status ∨
    ((∃ r, (s.step op).peer_status = .banned r) ∧ (s.step op).stopped = true) ∨
    (s.peer_status = .connecting ∧ (s.step op).peer_status = .ready) := by
  unfold PeerActor.step
  split
  · exact Or.inl rfl
  · cases op with
    | recvFrame o raw => exact PeerActor.handleFrame_status s o raw
    | recvStreamErr r => exact Or.inr (Or.inl ⟨⟨r, rfl⟩, rfl⟩)
    | pmBanPeer r => exact Or.inr (Or.inl ⟨⟨r, rfl⟩, rfl⟩)
    | pmUnregisterPeer => exact Or.inl rfl
    | sendMessage m => exact Or.inl (PeerActor.sm_peer_status s m)

/-- Rank-monotonicity of a single step. -/
theorem PeerActor.step_rank_mono (s : PeerActor) (op : ActorOp) :
    s.peer_status.rank ≤ (s.step op).peer_status.rank := by
  rcases PeerActor.step_status s op with h | h | h
  · rw [h]
  · obtain ⟨⟨r, hr⟩, _⟩ := h
    rw [hr]
    cases s.peer_status <;> simp [PeerStatus.rank]
  · rw [h.1, h.2]
    simp [PeerStatus.rank]

/-- A step that leaves the actor running keeps the status or moves it to
Ready. -/
theorem PeerActor.step_not_stopped_status (s : PeerActor) (op : ActorOp)
    (h : (s.step op).stopped = false) :
    (s.step op).peer_status = s.peer_status ∨ (s.step op).peer_status = .ready := by
  rcases PeerActor.step_status s op with h1 | h1 | h1
  · exact Or.inl h1
  · rw [h1.2] at h
    exact absurd h (by simp)
  · exact Or.inr h1.2

theorem PeerActor.step_stopped_id (s : PeerActor) (op : ActorOp)
    (h : s.stopped = true) : s.step op = s := by
  unfold PeerActor.step
  simp [h]

/-- In every reachable state, a Banned status implies the actor has been
stopped (`ban_peer` always calls `ctx.stop()`). -/
theorem PeerActor.reachable_banned_stopped (s : PeerActor) (hs : PeerActor.Reachable s) :
    ∀ r, s.peer_status = .banned r → s.stopped = true := by
  induction hs with
  | init cfg mni pi pt pei txns fe =>
    intro r hr
    exact absurd hr (by simp [PeerActor.new])
  | next s op hR ih =>
    intro r hr
    by_cases hstop : (s.step op).stopped = true
    · exact hstop
    · rcases PeerActor.step_not_stopped_status s op (by simpa using hstop) with h1 | h1
      · have hb : s.peer_status = .banned r := by rw [← h1]; exact hr
        have hid := PeerActor.step_stopped_id s op (ih r hb)
        rw [hid]
        exact ih r hb
      · rw [h1] at hr
        exact absurd hr (by simp)

theorem PeerActor.dispatch_tracker_connecting (s : PeerActor) (o : Oracle) (m : PeerMessage)
    (hst : s.peer_status = .connecting) :
    (s.dispatch o m).tracker_received_blocks = s.tracker_received_blocks := by
  cases m <;> simp [PeerActor.dispatch, hst]

theorem PeerActor.handleFrame_tracker_connecting (s : PeerActor) (o : Oracle) (raw : RawFrame)
    (hst : s.peer_status = .connecting) :
    (s.handleFrame o raw).tracker_received_blocks = s.tracker_received_blocks := by
  unfold PeerActor.handleFrame
  cases hp : s.parse_message raw with
  | mk msg? s1 =>
    have htr : s1.tracker_received_blocks = s.tracker_received_blocks := by
      have := PeerActor.parse_message_tracker_received s raw
      rw [hp] at this
      exact this
    have hst1 : s1.peer_status = .connecting := by
      have := PeerActor.parse_message_peer_status s raw
      rw [hp] at this
      rw [this]
      exact hst
    cases msg? with
    | none => exact htr
    | some msg =>
      simp only
      split
      · rw [PeerActor.dispatch_tracker_connecting _ o msg
          (by rw [PeerActor.preDispatch_peer_status]; exact hst1)]
        rw [PeerActor.preDispatch_tracker_received]
        exact htr
      · rw [PeerActor.preDispatch_tracker_received]
        exact htr

theorem PeerActor.step_tracker_connecting (s : PeerActor) (op : ActorOp)
    (hst : s.peer_status = .connecting) :
    (s.step op).tracker_received_blocks = s.tracker_received_blocks := by
  unfold PeerActor.step
  split
  · rfl
  · cases op with
    | recvFrame o raw => exact PeerActor.handleFrame_tracker_connecting s o raw hst
    | recvStreamErr r => simp
    | pmBanPeer r => simp
    | pmUnregisterPeer => rfl
    | sendMessage m => simp

/-- In every reachable state still in Connecting, no block has ever been
recorded as received (blocks are delivered to the client only in Ready,
and the status never returns to Connecting). -/
theorem PeerActor.reachable_connecting_tracker (s : PeerActor) (hs : PeerActor.Reachable s) :
    s.peer_status = .connecting → s.tracker_received_blocks = [] := by
  induction hs with
  | init cfg mni pi pt pei txns fe => intro _; rfl
  | next s op hR ih =>
    intro hc
    rcases PeerActor.step_status s op with h1 | h1 | h1
    · rw [PeerActor.step_tracker_connecting s op (by rw [← h1]; exact hc)]
      exact ih (by rw [← h1]; exact hc)
    · obtain ⟨⟨r, hr⟩, _⟩ := h1
      rw [hr] at hc
      exact absurd hc (by simp)
    · rw [h1.2] at hc
      exact absurd hc (by simp)

theorem PeerActor.handleFrame_pbs_mono (s : PeerActor) (o : Oracle) (raw : RawFrame)
    (h : s.protocol_buffers_supported = true) :
    (s.handleFrame o raw).protocol_buffers_supported = true := by
  unfold PeerActor.handleFrame
  cases hp : s.parse_message raw with
  | mk msg? s1 =>
    have hp1 : s1.protocol_buffers_supported = true := by
      have := PeerActor.parse_message_pbs_mono s raw h
      rw [hp] at this
      exact this
    cases msg? with
    | none => exact hp1
    | some msg =>
      simp only
      split
      · rw [PeerActor.dispatch_pbs, PeerActor.preDispatch_pbs]
        exact hp1
      · rw [PeerActor.preDispatch_pbs]
        exact hp1

theorem PeerActor.step_pbs_mono (s : PeerActor) (op : ActorOp)
    (h : s.protocol_buffers_supported = true) :
    (s.step op).protocol_buffers_supported = true := by
  unfold PeerActor.step
  split
  · exact h
  · cases op with
    | recvFrame o raw => exact PeerActor.handleFrame_pbs_mono s o raw h
    | recvStreamErr r => simpa using h
    | pmBanPeer r => simpa using h
    | pmUnregisterPeer => exact h
    | sendMessage m => simpa using h

theorem PeerActor.handleFrame_cache_bound (s : PeerActor) (o : Oracle) (raw : RawFrame)
    (h : s.routed_message_cache.length ≤ ROUTED_MESSAGE_CACHE_SIZE) :
    (s.handleFrame o raw).routed_message_cache.length ≤ ROUTED_MESSAGE_CACHE_SIZE := by
  unfold PeerActor.handleFrame
  cases hp : s.parse_message raw with
  | mk msg? s1 =>
    have hc1 : s1.routed_message_cache = s.routed_message_cache := by
      have := PeerActor.parse_message_cache s raw
      rw [hp] at this
      exact this
    cases msg? with
    | none => rw [hc1]; exact h
    | some msg =>
      simp only
      have hb := PeerActor.preDispatch_cache_bound s1 o.now msg (by rw [hc1]; exact h)
      split
      · rw [PeerActor.dispatch_cache]
        exact hb
      · exact hb

theorem PeerActor.step_cache_bound (s : PeerActor) (op : ActorOp)
    (h : s.routed_message_cache.length ≤ ROUTED_MESSAGE_CACHE_SIZE) :
    (s.step op).routed_message_cache.length ≤ ROUTED_MESSAGE_CACHE_SIZE := by
  unfold PeerActor.step
  split
  · exact h
  · cases op with
    | recvFrame o raw => exact PeerActor.handleFrame_cache_bound s o raw h
    | recvStreamErr r => simpa using h
    | pmBanPeer r => simpa using h
    | pmUnregisterPeer => exact h
    | sendMessage m => simpa using h

/-! ### Claims -/

/-- C4: effective-encoding selection: at every moment, a forced encoding
wins; otherwise observed remote Proto support selects Proto; otherwise a
Connecting status selects none (dual mode); otherwise Borsh. -/
theorem encoding_selection :
    (∀ (s : PeerActor) (e : PeerEncoding),
      s.force_encoding = some e → s.encoding = some e) ∧
    (∀ s : PeerActor, s.force_encoding = none →
      s.protocol_buffers_supported = true → s.encoding = some .proto) ∧
    (∀ s : PeerActor, s.force_encoding = none →
      s.protocol_buffers_supported = false → s.peer_status = .connecting →
      s.encoding = none) ∧
    (∀ s : PeerActor, s.force_encoding = none →
      s.protocol_buffers_supported = false → s.peer_status ≠ .connecting →
      s.encoding = some .borsh) := by
  refine ⟨?_, ?_, ?_, ?_⟩
  · intro s e h
    simp [PeerActor.encoding, h]
  · intro s h1 h2
    simp [PeerActor.encoding, h1, h2]
  · intro s h1 h2 h3
    simp [PeerActor.encoding, h1, h2, h3]
  · intro s h1 h2 h3
    simp [PeerActor.encoding, h1, h2, h3]

theorem encoding_selection_witness :
    ({ testOutbound with force_encoding := some .borsh } : PeerActor).encoding = some .borsh ∧
    testOutbound.encoding = none ∧
    testReady.encoding = some .borsh :=
  ⟨encoding_selection.1 _ .borsh rfl,
   encoding_selection.2.2.1 testOutbound rfl rfl rfl,
   encoding_selection.2.2.2 testReady (by decide) (by decide) (by decide)⟩

/-- C9 counterexample: the transaction ceiling is the constant 1000, not
`usize::MAX`, and with the shared counter at 1001 a routed ForwardTx is
dropped by the flood-control check (the claim says none is ever
dropped). -/
theorem txn_ceiling_counterexample :
    MAX_TRANSACTIONS_PER_BLOCK_MESSAGE = 1000 ∧
    MAX_TRANSACTIONS_PER_BLOCK_MESSAGE ≠ 2 ^ 64 - 1 ∧
    floodState.should_we_drop_msg (.routed dupTx) = true := by
  refine ⟨rfl, by decide, by decide⟩

/-- C9 (amended): `MAX_TRANSACTIONS_PER_BLOCK_MESSAGE` is 1000 (it is
`MAX_PEER_MSG_PER_MIN` that is `usize::MAX` with a TODO to lower it), so
the flood-control check drops a message exactly when it is a routed
ForwardTx and the shared counter exceeds 1000. -/
theorem txn_ceiling_is_1000 :
    MAX_TRANSACTIONS_PER_BLOCK_MESSAGE = 1000 ∧
    MAX_PEER_MSG_PER_MIN = 2 ^ 64 - 1 ∧
    (∀ (s : PeerActor) (m : PeerMessage),
      s.should_we_drop_msg m = true ↔
        ∃ rm : RoutedMessageData, m = .routed rm ∧ (∃ tx, rm.body = .forwardTx tx) ∧
          MAX_TRANSACTIONS_PER_BLOCK_MESSAGE < s.txns_since_last_block) := by
  refine ⟨rfl, rfl, ?_⟩
  intro s m
  cases m <;> simp [PeerActor.should_we_drop_msg]
  case routed rm =>
    cases hb : rm.body <;> simp [hb]

theorem txn_ceiling_is_1000_witness :
    floodState.should_we_drop_msg (.routed dupTx) = true :=
  (txn_ceiling_is_1000.2.2 floodState (.routed dupTx)).mpr
    ⟨dupTx, rfl, ⟨3, rfl⟩, by decide⟩

/-- C2 counterexample: the claim says the counter is incremented on every
routed ForwardTx, but a ForwardTx that is an exact duplicate (same
author, target, signature) of one received 10 ms earlier is dropped by
the dedup cache before the increment: after `c2s3` handles the second
copy, the shared counter still holds 6. -/
theorem txn_flood_counterexample :
    (c2s2.parse_message dupRaw).1 = some (.routed dupTx) ∧
    c2s2.txns_since_last_block = 6 ∧
    c2s3.txns_since_last_block = 6 := by
  refine ⟨by decide, by decide, by decide⟩

/-- C2 (amended): a routed ForwardTx is dropped before any dispatch when
the shared counter exceeds `MAX_TRANSACTIONS_PER_BLOCK_MESSAGE` (nothing
else is dropped by that check and the state is untouched); a ForwardTx
that passes the pre-dispatch filters (flood control and dedup)
increments the counter (usize arithmetic); a top-level Block always
passes the filters and resets the counter to zero, so the next ForwardTx
is accepted by the flood-control check. -/
theorem txn_flood_control :
    (∀ (s : PeerActor) (now : Nat) (m : PeerMessage),
      s.should_we_drop_msg m = true → s.preDispatch now m = (s, false)) ∧
    (∀ (s : PeerActor) (now : Nat) (rm : RoutedMessageData) (tx : Nat),
      rm.body = .forwardTx tx →
      (s.preDispatch now (.routed rm)).2 = true →
      (s.preDispatch now (.routed rm)).1.txns_since_last_block =
        (s.txns_since_last_block + 1) % USIZE_MOD) ∧
    (∀ (s : PeerActor) (now : Nat) (b : BlockData),
      s.preDispatch now (.block b) = ({ s with txns_since_last_block := 0 }, true)) ∧
    (∀ (s : PeerActor) (now : Nat) (b : BlockData) (rm : RoutedMessageData),
      ((s.preDispatch now (.block b)).1).should_we_drop_msg (.routed rm) = false) := by
  refine ⟨?_, ?_, ?_, ?_⟩
  · intro s now m h
    simp [PeerActor.preDispatch, h]
  · intro s now rm tx hb h2
    unfold PeerActor.preDispatch at h2 ⊢
    by_cases hf : s.should_we_drop_msg (.routed rm)
    · simp [hf] at h2
    · simp only [hf, Bool.false_eq_true, if_false] at h2 ⊢
      by_cases hd : (s.dedupStep now (.routed rm)).1
      · simp [hd] at h2
      · simp only [hd, Bool.false_eq_true, if_false]
        simp [txnCounterStep, hb]
  · intro s now b
    simp [PeerActor.preDispatch, PeerActor.should_we_drop_msg, PeerActor.dedupStep,
      txnCounterStep]
  · intro s now b rm
    cases hb : rm.body <;>
      simp [PeerActor.preDispatch, PeerActor.should_we_drop_msg, PeerActor.dedupStep,
        txnCounterStep, hb]

theorem txn_flood_control_witness :
    floodState.preDispatch 7 (.routed dupTx) = (floodState, false) ∧
    (c2s1.preDispatch 100 (.routed dupTx)).1.txns_since_last_block =
      (c2s1.txns_since_last_block + 1) % USIZE_MOD ∧
    c2s1.preDispatch 50 (.block ⟨99, 5⟩) = ({ c2s1 with txns_since_last_block := 0 }, true) ∧
    ((c2s1.preDispatch 50 (.block ⟨99, 5⟩)).1).should_we_drop_msg (.routed dupTx) = false :=
  ⟨txn_flood_control.1 floodState 7 (.routed dupTx) (by decide),
   txn_flood_control.2.1 c2s1 100 dupTx 3 rfl (by decide),
   txn_flood_control.2.2.1 c2s1 50 ⟨99, 5⟩,
   txn_flood_control.2.2.2 c2s1 50 ⟨99, 5⟩ dupTx⟩

/-- C5: parsing attempts only the effective encoding when one is set; in
dual mode Proto is attempted first and, on success, latches
`protocol_buffers_supported` before returning, otherwise Borsh is
attempted; and the latch is sticky: once true, no operation of the actor
ever resets it. -/
theorem parse_rule_sticky :
    (∀ (s : PeerActor) (raw : RawFrame) (e : PeerEncoding),
      s.encoding = some e → s.parse_message raw = (raw.deserialize e, s)) ∧
    (∀ (s : PeerActor) (raw : RawFrame) (m : PeerMessage),
      s.encoding = none → raw.deserialize .proto = some m →
      s.parse_message raw = (some m, { s with protocol_buffers_supported := true })) ∧
    (∀ (s : PeerActor) (raw : RawFrame),
      s.encoding = none → raw.deserialize .proto = none →
      s.parse_message raw = (raw.deserialize .borsh, s)) ∧
    (∀ (s : PeerActor) (op : ActorOp),
      s.protocol_buffers_supported = true →
      (s.step op).protocol_buffers_supported = true) := by
  refine ⟨?_, ?_, ?_, PeerActor.step_pbs_mono⟩
  · intro s raw e h
    simp [PeerActor.parse_message, h]
  · intro s raw m h hp
    simp [PeerActor.parse_message, h, hp]
  · intro s raw h hp
    simp [PeerActor.parse_message, h, hp]

theorem parse_rule_sticky_witness :
    ({ testOutbound with force_encoding := some .borsh } : PeerActor).parse_message dupRaw =
      (dupRaw.deserialize .borsh, { testOutbound with force_encoding := some .borsh }) ∧
    testOutbound.parse_message ⟨some .disconnect, none⟩ =
      (some .disconnect, { testOutbound with protocol_buffers_supported := true }) ∧
    testOutbound.parse_message dupRaw = (dupRaw.deserialize .borsh, testOutbound) ∧
    (({ testOutbound with protocol_buffers_supported := true } : PeerActor).step
      (.sendMessage .disconnect)).protocol_buffers_supported = true :=
  ⟨parse_rule_sticky.1 _ dupRaw .borsh rfl,
   parse_rule_sticky.2.1 testOutbound ⟨some .disconnect, none⟩ .disconnect rfl rfl,
   parse_rule_sticky.2.2.1 testOutbound dupRaw rfl rfl,
   parse_rule_sticky.2.2.2 _ (.sendMessage .disconnect) rfl⟩

theorem lruGet_fst (entries : List (RoutedKey × Nat)) (k : RoutedKey) :
    (lruGet entries k).1 = lruPeek entries k := by
  unfold lruGet lruPeek
  cases entries.find? (fun e => e.1 = k) <;> simp

theorem lruPeek_promote {entries : List (RoutedKey × Nat)} {k : RoutedKey} {t : Nat}
    {c1 : List (RoutedKey × Nat)} (hg : lruGet entries k = (some t, c1)) :
    lruPeek c1 k = some t := by
  unfold lruGet at hg
  cases hf : entries.find? (fun e => e.1 = k) with
  | none =>
    rw [hf] at hg
    simp at hg
  | some e =>
    rw [hf] at hg
    have h1 : some e.2 = some t := congrArg Prod.fst hg
    have h2 : e :: entries.filter (fun e => ¬ e.1 = k) = c1 := congrArg Prod.snd hg
    have hpe := List.find?_some hf
    have h3 : e.2 = t := Option.some.inj h1
    unfold lruPeek
    rw [← h2]
    simp [List.find?_cons, hpe, h3]

theorem lruPeek_put (c : List (RoutedKey × Nat)) (k : RoutedKey) (v : Nat) :
    lruPeek (lruPut ROUTED_MESSAGE_CACHE_SIZE c k v) k = some v := by
  unfold lruPut lruPeek
  rw [show ROUTED_MESSAGE_CACHE_SIZE = 999 + 1 from rfl, List.take_succ_cons,
    List.find?_cons_of_pos _ (by simp)]
  rfl

theorem PeerActor.preDispatch_routed_dup (s : PeerActor) {now t : Nat}
    {rm : RoutedMessageData} {c1 : List (RoutedKey × Nat)}
    (hf : s.should_we_drop_msg (.routed rm) = false)
    (hg : lruGet s.routed_message_cache rm.key = (some t, c1))
    (hle : now ≤ t + DROP_DUPLICATED_MESSAGES_PERIOD) :
    s.preDispatch now (.routed rm) = ({ s with routed_message_cache := c1 }, false) := by
  unfold PeerActor.preDispatch PeerActor.dedupStep
  simp [hf, hg, hle]

theorem PeerActor.preDispatch_routed_put (s : PeerActor) {now : Nat}
    {rm : RoutedMessageData} {t? : Option Nat} {c1 : List (RoutedKey × Nat)}
    (hf : s.should_we_drop_msg (.routed rm) = false)
    (hg : lruGet s.routed_message_cache rm.key = (t?, c1))
    (hstale : ∀ t, t? = some t → ¬ now ≤ t + DROP_DUPLICATED_MESSAGES_PERIOD) :
    s.preDispatch now (.routed rm) =
      ({ s with routed_message_cache := lruPut ROUTED_MESSAGE_CACHE_SIZE c1 rm.key now,
                txns_since_last_block :=
                  txnCounterStep s.txns_since_last_block (.routed rm) }, true) := by
  unfold PeerActor.preDispatch PeerActor.dedupStep
  cases t? with
  | none => simp [hf, hg]
  | some t =>
    have := hstale t rfl
    simp [hf, hg, this]

/-- A routed message whose key is cached with a timestamp at most 50 ms
old is dropped by the pre-dispatch filters, and the cached timestamp is
untouched. -/
theorem PeerActor.preDispatch_dup_keeps_peek (s : PeerActor) {now t0 : Nat}
    {rm : RoutedMessageData}
    (hpeek : lruPeek s.routed_message_cache rm.key = some t0)
    (hle : now ≤ t0 + DROP_DUPLICATED_MESSAGES_PERIOD) :
    (s.preDispatch now (.routed rm)).2 = false ∧
    lruPeek (s.preDispatch now (.routed rm)).1.routed_message_cache rm.key = some t0 := by
  by_cases hf : s.should_we_drop_msg (.routed rm)
  · have : s.preDispatch now (.routed rm) = (s, false) := by
      simp [PeerActor.preDispatch, hf]
    rw [this]
    exact ⟨rfl, hpeek⟩
  · have hg1 : (lruGet s.routed_message_cache rm.key).1 = some t0 := by
      rw [lruGet_fst]
      exact hpeek
    have hg : lruGet s.routed_message_cache rm.key =
        (some t0, (lruGet s.routed_message_cache rm.key).2) := by
      rw [← hg1]
    rw [PeerActor.preDispatch_routed_dup s (by simpa using hf) hg hle]
    exact ⟨rfl, lruPeek_promote hg⟩

/-- A routed message that passes the pre-dispatch filters leaves its key
cached with the current time. -/
theorem PeerActor.preDispatch_deliver_peek (s : PeerActor) {now : Nat}
    {rm : RoutedMessageData}
    (h2 : (s.preDispatch now (.routed rm)).2 = true) :
    lruPeek (s.preDispatch now (.routed rm)).1.routed_message_cache rm.key = some now := by
  by_cases hf : s.should_we_drop_msg (.routed rm)
  · have : s.preDispatch now (.routed rm) = (s, false) := by
      simp [PeerActor.preDispatch, hf]
    rw [this] at h2
    simp at h2
  · have hf' : s.should_we_drop_msg (.routed rm) = false := by simpa using hf
    cases hg : lruGet s.routed_message_cache rm.key with
    | mk t? c1 =>
      cases t? with
      | none =>
        rw [PeerActor.preDispatch_routed_put s hf' hg (by intro t ht; cases ht)]
        exact lruPeek_put c1 rm.key now
      | some t =>
        by_cases hle : now ≤ t + DROP_DUPLICATED_MESSAGES_PERIOD
        · rw [PeerActor.preDispatch_routed_dup s hf' hg hle] at h2
          simp at h2
        · rw [PeerActor.preDispatch_routed_put s hf' hg
            (by intro t' ht'; rw [Option.some.inj ht'] at hle; exact hle)]
          exact lruPeek_put c1 rm.key now

/-- Any run of routed messages whose keys all equal a key cached at time
`t0` and whose arrival times stay within the 50 ms window of `t0` is
entirely dropped by the pre-dispatch filters. -/
theorem PeerActor.allDroppedPre_of_peek (rest : List (Nat × RoutedMessageData)) :
    ∀ (s : PeerActor) (k : RoutedKey) (t0 : Nat),
      lruPeek s.routed_message_cache k = some t0 →
      (∀ p ∈ rest, p.2.key = k) →
      (∀ p ∈ rest, p.1 ≤ t0 + DROP_DUPLICATED_MESSAGES_PERIOD) →
      s.allDroppedPre rest = true := by
  induction rest with
  | nil =>
    intro s k t0 _ _ _
    rfl
  | cons p rest ih =>
    intro s k t0 hpeek hkeys hts
    obtain ⟨t, rm⟩ := p
    have hk : rm.key = k := hkeys (t, rm) (by simp)
    have ht : t ≤ t0 + DROP_DUPLICATED_MESSAGES_PERIOD := hts (t, rm) (by simp)
    have hdrop := PeerActor.preDispatch_dup_keeps_peek s (hk ▸ hpeek) ht
    unfold PeerActor.allDroppedPre
    simp only [hdrop.1, Bool.not_false, Bool.true_and]
    exact ih _ k t0 (hk ▸ hdrop.2)
      (fun q hq => hkeys q (List.mem_cons_of_mem _ hq))
      (fun q hq => hts q (List.mem_cons_of_mem _ hq))

/-- C1 counterexample: the claim quantifies over every inbound routed
message, but a routed ForwardTx dropped by the transaction flood-control
check (shared counter at 1001) never reaches the dedup cache: with an
empty cache, where the claim requires the key to be inserted with the
current time, the state is returned unchanged and nothing is cached. -/
theorem routed_dedup_counterexample :
    floodState.routed_message_cache = [] ∧
    floodState.preDispatch 60 (.routed dupTx) = (floodState, false) ∧
    lruPeek (floodState.preDispatch 60 (.routed dupTx)).1.routed_message_cache dupTx.key =
      none := by
  refine ⟨rfl, by decide, by decide⟩

/-- C1 (amended): for every inbound routed message that passes the
transaction flood-control check, the engine looks the key (author,
target, signature) up in the cache: a hit whose timestamp is at most
50 ms old drops the message and leaves the cached timestamp unchanged;
otherwise the message proceeds and the key is inserted/overwritten with
the current time. The cache never exceeds 1000 entries. Consequently,
in a run of routed messages with identical key, if the first one is
delivered to the next stage, every later one arriving within 50 ms of
it is dropped. -/
theorem routed_message_dedup :
    (∀ (s : PeerActor) (now t : Nat) (rm : RoutedMessageData),
      s.should_we_drop_msg (.routed rm) = false →
      lruPeek s.routed_message_cache rm.key = some t →
      now ≤ t + DROP_DUPLICATED_MESSAGES_PERIOD →
      (s.preDispatch now (.routed rm)).2 = false ∧
      lruPeek (s.preDispatch now (.routed rm)).1.routed_message_cache rm.key = some t) ∧
    (∀ (s : PeerActor) (now : Nat) (rm : RoutedMessageData),
      s.should_we_drop_msg (.routed rm) = false →
      (∀ t, lruPeek s.routed_message_cache rm.key = some t →
        ¬ now ≤ t + DROP_DUPLICATED_MESSAGES_PERIOD) →
      (s.preDispatch now (.routed rm)).2 = true ∧
      lruPeek (s.preDispatch now (.routed rm)).1.routed_message_cache rm.key = some now) ∧
    (∀ (s : PeerActor) (op : ActorOp),
      s.routed_message_cache.length ≤ ROUTED_MESSAGE_CACHE_SIZE →
      (s.step op).routed_message_cache.length ≤ ROUTED_MESSAGE_CACHE_SIZE) ∧
    (∀ (s : PeerActor) (t0 : Nat) (rm : RoutedMessageData)
        (rest : List (Nat × RoutedMessageData)),
      (∀ p ∈ rest, p.2.key = rm.key) →
      (∀ p ∈ rest, p.1 ≤ t0 + DROP_DUPLICATED_MESSAGES_PERIOD) →
      (s.preDispatch t0 (.routed rm)).2 = true →
      ((s.preDispatch t0 (.routed rm)).1).allDroppedPre rest = true) := by
  refine ⟨?_, ?_, PeerActor.step_cache_bound, ?_⟩
  · intro s now t rm hf hpeek hle
    exact PeerActor.preDispatch_dup_keeps_peek s hpeek hle
  · intro s now rm hf hstale
    cases hg : lruGet s.routed_message_cache rm.key with
    | mk t? c1 =>
      have hpk : lruPeek s.routed_message_cache rm.key = t? := by
        rw [← lruGet_fst, hg]
      have hput := PeerActor.preDispatch_routed_put s hf hg
        (fun t ht => hstale t (by rw [hpk, ht]))
      rw [hput]
      exact ⟨rfl, lruPeek_put c1 rm.key now⟩
  · intro s t0 rm rest hkeys hts h2
    exact PeerActor.allDroppedPre_of_peek rest _ rm.key t0
      (PeerActor.preDispatch_deliver_peek s h2) hkeys hts

theorem routed_message_dedup_witness :
    ((c2s1.preDispatch 100 (.routed dupTx)).1).allDroppedPre
      [(110, dupTx), (149, dupTx)] = true ∧
    (c2s2.preDispatch 110 (.routed dupTx)).2 = false ∧
    testReady.routed_message_cache.length ≤ ROUTED_MESSAGE_CACHE_SIZE :=
  ⟨routed_message_dedup.2.2.2 c2s1 100 dupTx [(110, dupTx), (149, dupTx)]
      (by decide) (by decide) (by decide),
   (routed_message_dedup.1 c2s2 110 100 dupTx (by decide) (by decide) (by decide)).1,
   routed_message_dedup.2.2.1 testOutbound
      (.recvFrame testOracle ⟨none, some (.handshake testHandshakeB)⟩) (by decide)⟩

/-- C6 counterexample: an inbound connection banned before its handshake
(stream error) reaches Banned with `peer_info = none`, and `stopping`
then sends no notification at all — not the exactly-one Ban the claim
requires. -/
theorem ban_notification_counterexample :
    bannedNoInfo.peer_status = .banned .invalidSignature ∧
    bannedNoInfo.stopping = [] := by
  refine ⟨by decide, by decide⟩

/-- C6 (amended): on shutdown of a Banned connection, exactly one Ban
notification with the banned reason is sent when the remote peer's info
is known, and none at all when it is not; in either case no Unregister
notification is produced, and every transition into Banned also stops
the actor (so `stopping` runs). -/
theorem ban_shutdown_notification :
    (∀ (s : PeerActor) (r : ReasonForBan) (pi : PeerInfo),
      s.peer_status = .banned r → s.peer_info = some pi →
      s.stopping = [.banNote pi.id r]) ∧
    (∀ (s : PeerActor) (r : ReasonForBan),
      s.peer_status = .banned r → s.peer_info = none → s.stopping = []) ∧
    (∀ (s : PeerActor) (r : ReasonForBan) (p : PeerId) (pt : PeerType) (b : Bool),
      s.peer_status = .banned r →
      PmNotification.unregisterNote p pt b ∉ s.stopping) ∧
    (∀ (s : PeerActor) (op : ActorOp) (r : ReasonForBan),
      s.peer_status ≠ .banned r → (s.step op).peer_status = .banned r →
      (s.step op).stopped = true) := by
  refine ⟨?_, ?_, ?_, ?_⟩
  · intro s r pi hb hpi
    simp [PeerActor.stopping, hpi, hb]
  · intro s r hb hpi
    simp [PeerActor.stopping, hpi]
  · intro s r p pt b hb
    cases hpi : s.peer_info <;> simp [PeerActor.stopping, hpi, hb]
  · intro s op r hne hb
    rcases PeerActor.step_status s op with h1 | h1 | h1
    · rw [h1] at hb
      exact absurd hb hne
    · exact h1.2
    · rw [h1.2] at hb
      cases hb

theorem ban_shutdown_notification_witness :
    bannedReady.stopping = [.banNote 1 .abusive] ∧
    bannedNoInfo.stopping = [] ∧
    PmNotification.unregisterNote 1 .outbound true ∉ bannedReady.stopping ∧
    (testReady.step (.pmBanPeer .abusive)).stopped = true :=
  ⟨ban_shutdown_notification.1 bannedReady .abusive ⟨1, some 42, none⟩ (by decide) (by decide),
   ban_shutdown_notification.2.1 bannedNoInfo .invalidSignature (by decide) (by decide),
   ban_shutdown_notification.2.2.1 bannedReady .abusive 1 .outbound true (by decide),
   ban_shutdown_notification.2.2.2 testReady (.pmBanPeer .abusive) .abusive
     (by decide) (by decide)⟩

/-- C7: every connection starts Connecting; each operation moves the
status only forward in the order Connecting < Ready < Banned (never from
Ready back to Connecting), and a reachable Banned actor is inert: no
further operation changes anything (in particular Banned is terminal). -/
theorem status_monotonic :
    (∀ (cfg : VersionCfg) (mni : PeerInfo) (pi : Option PeerInfo) (pt : PeerType)
        (pei : Option PartialEdgeInfo) (txns : Nat) (fe : Option PeerEncoding),
      (PeerActor.new cfg mni pi pt pei txns fe).peer_status = .connecting) ∧
    (∀ (s : PeerActor) (op : ActorOp),
      s.peer_status.rank ≤ (s.step op).peer_status.rank) ∧
    (∀ (s : PeerActor) (op : ActorOp),
      s.peer_status = .ready → (s.step op).peer_status ≠ .connecting) ∧
    (∀ (s : PeerActor) (op : ActorOp) (r : ReasonForBan),
      PeerActor.Reachable s → s.peer_status = .banned r → s.step op = s) := by
  refine ⟨fun _ _ _ _ _ _ _ => rfl, PeerActor.step_rank_mono, ?_, ?_⟩
  · intro s op hr hc
    have := PeerActor.step_rank_mono s op
    rw [hr, hc] at this
    simp [PeerStatus.rank] at this
  · intro s op r hR hb
    exact PeerActor.step_stopped_id s op (PeerActor.reachable_banned_stopped s hR r hb)

theorem status_monotonic_witness :
    testOutbound.peer_status = .connecting ∧
    testOutbound.peer_status.rank ≤ testReady.peer_status.rank ∧
    (testReady.step (.recvFrame testOracle dupRaw)).peer_status ≠ .connecting ∧
    bannedReady.step (.recvFrame testOracle dupRaw) = bannedReady :=
  ⟨status_monotonic.1 testCfg testNodeA (some testNodeB) .outbound (some ⟨7, 77⟩) 0 none,
   status_monotonic.2.1 testOutbound
     (.recvFrame testOracle ⟨none, some (.handshake testHandshakeB)⟩),
   status_monotonic.2.2.1 testReady (.recvFrame testOracle dupRaw) (by decide),
   status_monotonic.2.2.2 bannedReady (.recvFrame testOracle dupRaw) .abusive
     (PeerActor.Reachable.next _ _ (PeerActor.Reachable.next _ _
       (PeerActor.Reachable.init testCfg testNodeA (some testNodeB) .outbound
         (some ⟨7, 77⟩) 0 none)))
     (by decide)⟩

theorem PeerActor.send_handshake_frames (s : PeerActor) (o : Oracle) (pi : PeerInfo)
    (hpi : s.peer_info = some pi)
    (h39 : 39 ≤ s.protocol_version) (hle : s.protocol_version ≤ s.cfg.PROTOCOL_VERSION) :
    ∃ fs, (s.send_handshake o).framed = s.framed ++ fs ∧ fs ≠ [] ∧
      ∀ f ∈ fs, (f : PeerEncoding × PeerMessage).2 = .handshake (s.handshakeMsg o pi) := by
  unfold PeerActor.send_handshake
  rw [hpi]
  simp only [h39, hle, and_self, if_true, ite_true]
  unfold PeerActor.send_message
  cases he : s.encoding with
  | some e =>
    refine ⟨[(e, .handshake (s.handshakeMsg o pi))], ?_, by simp, by simp⟩
    simp [PeerActor.smwe_spec, PeerActor.sendSkips, PeerActor.handshakeMsg]
  | none =>
    refine ⟨[(.proto, .handshake (s.handshakeMsg o pi)),
             (.borsh, .handshake (s.handshakeMsg o pi))], ?_, by simp, by simp⟩
    simp [PeerActor.smwe_spec, PeerActor.sendSkips, PeerActor.handshakeMsg]

/-- C8: a `HandshakeFailure(ProtocolVersionMismatch{v, min})` received
while Connecting passes the pre-dispatch filters untouched; with
`target = min(v, PROTOCOL_VERSION)`, if `target ≥ max(min,
PEER_MIN_ALLOWED_PROTOCOL_VERSION)` (and the remote peer is known and
`target ≥ 39`, so a handshake can actually be written), the engine sets
`protocol_version := target`, emits one more handshake frame (per active
encoding) carrying version `target`, and does not close the connection;
otherwise it closes the connection and the version is unchanged. -/
theorem handshake_failure_version_downgrade :
    (∀ (s : PeerActor) (now : Nat) (info : PeerInfo) (r : HandshakeFailureReason),
      s.preDispatch now (.handshakeFailure info r) = (s, true)) ∧
    (∀ (s : PeerActor) (o : Oracle) (info pi : PeerInfo) (v mn : Nat),
      s.peer_status = .connecting →
      s.peer_info = some pi →
      max mn s.cfg.PEER_MIN_ALLOWED_PROTOCOL_VERSION ≤ min v s.cfg.PROTOCOL_VERSION →
      39 ≤ min v s.cfg.PROTOCOL_VERSION →
      (s.dispatch o (.handshakeFailure info
        (.protocolVersionMismatch v mn))).protocol_version = min v s.cfg.PROTOCOL_VERSION ∧
      (s.dispatch o (.handshakeFailure info
        (.protocolVersionMismatch v mn))).stopped = s.stopped ∧
      ∃ fs, (s.dispatch o (.handshakeFailure info
          (.protocolVersionMismatch v mn))).framed = s.framed ++ fs ∧ fs ≠ [] ∧
        ∀ f ∈ fs, (f : PeerEncoding × PeerMessage).2 = .handshake
          (PeerActor.handshakeMsg
            { s with protocol_version := min v s.cfg.PROTOCOL_VERSION } o pi)) ∧
    (∀ (s : PeerActor) (o : Oracle) (info : PeerInfo) (v mn : Nat),
      s.peer_status = .connecting →
      ¬ max mn s.cfg.PEER_MIN_ALLOWED_PROTOCOL_VERSION ≤ min v s.cfg.PROTOCOL_VERSION →
      (s.dispatch o (.handshakeFailure info
        (.protocolVersionMismatch v mn))).stopped = true ∧
      (s.dispatch o (.handshakeFailure info
        (.protocolVersionMismatch v mn))).protocol_version = s.protocol_version) := by
  refine ⟨?_, ?_, ?_⟩
  · intro s now info r
    simp [PeerActor.preDispatch, PeerActor.should_we_drop_msg, PeerActor.dedupStep,
      txnCounterStep]
  · intro s o info pi v mn hst hpi hge h39
    have hd : s.dispatch o (.handshakeFailure info (.protocolVersionMismatch v mn)) =
        PeerActor.send_handshake
          { s with protocol_version := min v s.cfg.PROTOCOL_VERSION } o := by
      simp [PeerActor.dispatch, hst, PeerActor.handleHandshakeFailure, hge]
    rw [hd]
    refine ⟨by simp, by simp, ?_⟩
    exact PeerActor.send_handshake_frames _ o pi hpi h39 (by simp)
  · intro s o info v mn hst hlt
    have hd : s.dispatch o (.handshakeFailure info (.protocolVersionMismatch v mn)) =
        s.stopCtx := by
      simp [PeerActor.dispatch, hst, PeerActor.handleHandshakeFailure, hlt]
    rw [hd]
    exact ⟨rfl, rfl⟩

theorem handshake_failure_version_downgrade_witness :
    testOutbound.preDispatch 0
      (.handshakeFailure testNodeB (.protocolVersionMismatch 58 50)) = (testOutbound, true) ∧
    (testOutbound.dispatch testOracle (.handshakeFailure testNodeB
      (.protocolVersionMismatch 58 50))).protocol_version =
        min 58 testOutbound.cfg.PROTOCOL_VERSION ∧
    (testOutbound.dispatch testOracle (.handshakeFailure testNodeB
      (.protocolVersionMismatch 58 50))).stopped = testOutbound.stopped ∧
    (testOutbound.dispatch testOracle (.handshakeFailure testNodeB
      (.protocolVersionMismatch 30 50))).stopped = true :=
  ⟨handshake_failure_version_downgrade.1 testOutbound 0 testNodeB
      (.protocolVersionMismatch 58 50),
   (handshake_failure_version_downgrade.2.1 testOutbound testOracle testNodeB testNodeB
      58 50 rfl rfl (by decide) (by decide)).1,
   (handshake_failure_version_downgrade.2.1 testOutbound testOracle testNodeB testNodeB
      58 50 rfl rfl (by decide) (by decide)).2.1,
   (handshake_failure_version_downgrade.2.2 testOutbound testOracle testNodeB
      30 50 rfl (by decide)).1⟩

@[simp] theorem PeerActor.smwe_sendSkips (s : PeerActor) (m2 : PeerMessage)
    (enc : PeerEncoding) (m : PeerMessage) :
    (s.send_message_with_encoding m2 enc).sendSkips m = s.sendSkips m := by
  cases m <;> simp [PeerActor.sendSkips, PeerActor.tracker_has_received, PeerActor.smwe_spec]

theorem PeerActor.encoding_none_connecting (s : PeerActor) (he : s.encoding = none) :
    s.peer_status = .connecting := by
  unfold PeerActor.encoding at he
  by_cases h1 : s.force_encoding.isSome
  · rw [if_pos h1] at he
    rw [he] at h1
    simp at h1
  · rw [if_neg h1] at he
    by_cases h2 : s.protocol_buffers_supported
    · simp [h2] at he
    · simp [h2] at he
      by_cases h3 : s.peer_status = PeerStatus.connecting
      · exact h3
      · simp [h3] at he

/-- C3 counterexample: in a reachable Ready state whose tracker has
recorded block 99 as received from this peer, the effective encoding is
set, yet sending that block back emits zero frames, not the exactly one
the claim requires. -/
theorem dual_send_counterexample :
    c3s2.encoding = some .borsh ∧
    c3s2.stopped = false ∧
    c3s3 = c3s2.send_message (.block ⟨99, 5⟩) ∧
    c3s3.framed = c3s2.framed := by
  refine ⟨by decide, by decide, by decide, by decide⟩

/-- C3 (amended): while the effective encoding is none (reachable states
still Connecting, where no received block can be in the tracker), every
message handed to the send path emits exactly two frames, one Proto and
one Borsh; when the effective encoding is set, exactly one frame is
emitted, except that a Block recorded by the tracker as received from
this peer is suppressed (zero frames). -/
theorem dual_send :
    (∀ (s : PeerActor) (m : PeerMessage), PeerActor.Reachable s → s.encoding = none →
      (s.send_message m).framed = s.framed ++ [(.proto, m), (.borsh, m)]) ∧
    (∀ (s : PeerActor) (m : PeerMessage) (e : PeerEncoding), s.encoding = some e →
      (s.send_message m).framed =
        s.framed ++ (if s.sendSkips m then [] else [(e, m)])) := by
  constructor
  · intro s m hR he
    have hc : s.peer_status = .connecting := PeerActor.encoding_none_connecting s he
    have htr := PeerActor.reachable_connecting_tracker s hR hc
    have hskip : s.sendSkips m = false := by
      cases m <;> simp [PeerActor.sendSkips, PeerActor.tracker_has_received, htr]
    unfold PeerActor.send_message
    rw [he]
    simp [PeerActor.smwe_spec, hskip]
    cases m <;> simp [PeerActor.sendSkips, PeerActor.tracker_has_received, htr]
  · intro s m e he
    unfold PeerActor.send_message
    rw [he]
    simp [PeerActor.smwe_spec]

theorem dual_send_witness :
    (testOutbound.send_message .disconnect).framed =
      testOutbound.framed ++ [(.proto, .disconnect), (.borsh, .disconnect)] ∧
    (c3s2.send_message (.block ⟨99, 5⟩)).framed =
      c3s2.framed ++
        (if c3s2.sendSkips (.block ⟨99, 5⟩) then [] else [(.borsh, .block ⟨99, 5⟩)]) :=
  ⟨dual_send.1 testOutbound .disconnect
      (PeerActor.Reachable.init testCfg testNodeA (some testNodeB) .outbound
        (some ⟨7, 77⟩) 0 none) rfl,
   dual_send.2 c3s2 (.block ⟨99, 5⟩) .borsh (by decide)⟩

/-- C10 counterexample: the claim asserts that for every parsed routed
message the dedup cache is consulted and updated and a ForwardTx
increments the counter; but a ForwardTx dropped by the flood-control
check short-circuits both: here (still Connecting, counter 1001) the
whole handler leaves the state untouched — nothing is cached and the
counter is not incremented. -/
theorem filters_counterexample :
    floodState.peer_status = .connecting ∧
    (floodState.parse_message dupRaw).1 = some (.routed dupTx) ∧
    floodState.handleFrame (oracleAt 60) dupRaw = floodState := by
  refine ⟨rfl, by decide, by decide⟩

/-- C10 (amended): the pre-dispatch filter pipeline (flood-control check
first, then — only if it does not drop — the dedup cache and the counter
updates) runs identically regardless of the connection status, and runs
before the status-based dispatch: its state change and drop verdict do
not depend on `peer_status`, and in Connecting a routed message that
passes the filters is then ignored by the dispatch, so handling it
amounts to exactly the filter update. -/
theorem filters_before_dispatch :
    (∀ (s : PeerActor) (st : PeerStatus) (now : Nat) (m : PeerMessage),
      (({ s with peer_status := st } : PeerActor).preDispatch now m).1 =
        { (s.preDispatch now m).1 with peer_status := st } ∧
      (({ s with peer_status := st } : PeerActor).preDispatch now m).2 =
        (s.preDispatch now m).2) ∧
    (∀ (s : PeerActor) (o : Oracle) (rm : RoutedMessageData),
      s.peer_status = .connecting → s.dispatch o (.routed rm) = s) ∧
    (∀ (s : PeerActor) (o : Oracle) (raw : RawFrame) (rm : RoutedMessageData)
        (s1 : PeerActor),
      s.peer_status = .connecting →
      s.parse_message raw = (some (.routed rm), s1) →
      s.handleFrame o raw = (s1.preDispatch o.now (.routed rm)).1) := by
  refine ⟨?_, ?_, ?_⟩
  · intro s st now m
    have hdrop : ({ s with peer_status := st } : PeerActor).should_we_drop_msg m =
        s.should_we_drop_msg m := by
      cases m <;> simp [PeerActor.should_we_drop_msg]
    have hded : ({ s with peer_status := st } : PeerActor).dedupStep now m =
        s.dedupStep now m := by
      cases m <;> simp [PeerActor.dedupStep]
    unfold PeerActor.preDispatch
    rw [hdrop, hded]
    by_cases h1 : s.should_we_drop_msg m <;> simp [h1]
    by_cases h2 : (s.dedupStep now m).1 <;> simp [h2]
  · intro s o rm hst
    simp [PeerActor.dispatch, hst]
  · intro s o raw rm s1 hst hp
    have hst1 : s1.peer_status = .connecting := by
      have := PeerActor.parse_message_peer_status s raw
      rw [hp] at this
      rw [this]
      exact hst
    unfold PeerActor.handleFrame
    rw [hp]
    simp only
    split
    · have hcon : ((s1.preDispatch o.now (.routed rm)).1).peer_status = .connecting := by
        rw [PeerActor.preDispatch_peer_status]
        exact hst1
      simp [PeerActor.dispatch, hcon, hst1]
    · rfl

theorem filters_before_dispatch_witness :
    (({ c2s1 with peer_status := .connecting } : PeerActor).preDispatch 100
        (.routed dupTx)).1 =
      { (c2s1.preDispatch 100 (.routed dupTx)).1 with peer_status := .connecting } ∧
    testOutbound.dispatch testOracle (.routed dupTx) = testOutbound ∧
    testOutbound.handleFrame (oracleAt 100) dupRaw =
      (testOutbound.preDispatch 100 (.routed dupTx)).1 :=
  ⟨(filters_before_dispatch.1 c2s1 .connecting 100 (.routed dupTx)).1,
   filters_before_dispatch.2.1 testOutbound testOracle dupTx rfl,
   filters_before_dispatch.2.2 testOutbound (oracleAt 100) dupRaw dupTx testOutbound
     rfl (by decide)⟩

/-- C8 counterexample: an inbound connection still Connecting with no
known remote peer id receives `HandshakeFailure(ProtocolVersionMismatch
{58, 50})`; the target 58 passes the bound, the version is lowered and
the connection stays open, but `send_handshake` has no peer to address
and emits no frame — the claim's "re-sends a Handshake" does not
happen. -/
theorem version_downgrade_counterexample :
    (PeerActor.new testCfg testNodeA none .inbound none 0 none).peer_status =
      .connecting ∧
    ((PeerActor.new testCfg testNodeA none .inbound none 0 none).dispatch testOracle
      (.handshakeFailure testNodeB (.protocolVersionMismatch 58 50))).protocol_version = 58 ∧
    ((PeerActor.new testCfg testNodeA none .inbound none 0 none).dispatch testOracle
      (.handshakeFailure testNodeB (.protocolVersionMismatch 58 50))).stopped = false ∧
    ((PeerActor.new testCfg testNodeA none .inbound none 0 none).dispatch testOracle
      (.handshakeFailure testNodeB (.protocolVersionMismatch 58 50))).framed = [] := by
  refine ⟨rfl, by decide, by decide, by decide⟩
